import Mathlib

/-!
Shallow embedding of the budget-bop transaction ingestion pipeline
(src/lib/clipboard-parser.ts, src/lib/auto-categorizer.ts and the amount
parsing in src/components/import/enhanced-import-upload.tsx), together with
theorems settling the frozen claims about it.

Modelling conventions:
* JavaScript strings are Lean `String`s (all data of interest is ASCII, where
  UTF-16 code units and Lean characters coincide).
* JavaScript numbers are modelled as exact rationals `ℚ`; the value `NaN`
  (which the hasher treats specially) is modelled by the `JsNum` type.  None
  of the numeric comparisons performed by the code sit on a binary-rounding
  boundary for the inputs considered here, so the rational model and IEEE
  doubles agree on every branch taken.
* The mutable rule stores of the two engines are threaded explicitly as
  state values; `new Date()` timestamps and `crypto.randomUUID()` results are
  passed in as explicit parameters.
* `Array.prototype.sort` is modelled as a stable insertion sort
  (`jsSortStable`): ECMA-262 mandates a stable sort whenever the comparator
  is consistent, and leaves the order implementation-defined otherwise.
* The browser's `DOMParser` is modelled by an oracle parameter returning the
  table cell texts, `new Date(string)` parsing by a small model of the
  common bank formats, and `RegExp` by an interpreter for the anchored
  literal patterns actually occurring in the rule sets.
* SHA-1 (invoked through `crypto.subtle.digest`) is implemented in full over
  `Nat` arithmetic taken modulo `2 ^ 32`.
-/

/- Batteries marks rational arithmetic irreducible, which blocks `decide` on
the concrete scenarios below; restore default reducibility inside this file. -/
attribute [local semireducible] Rat.add Rat.mul Rat.sub Rat.inv Rat.ofScientific

/-! ### JavaScript character and string primitives -/

/-- Whitespace class of JavaScript regular expressions (`\s`), restricted to
the code points that can occur in the pipeline's inputs. -/
def isJsSpace (c : Char) : Bool :=
  c = ' ' || c = '\t' || c = '\n' || c = '\r' || c = '\x0b' || c = '\x0c' || c = ' '

/-- Word-character class of JavaScript regular expressions (`\w`). -/
def isJsWordChar (c : Char) : Bool :=
  c.isAlpha || c.isDigit || c = '_'

/-- JavaScript `String.prototype.toLowerCase` (ASCII range). -/
def jsLower (s : String) : String :=
  String.mk (s.data.map Char.toLower)

/-- Collapse every maximal run of `\s` characters to a single space, as
`replace(/\s+/g, ' ')` does.  The boolean records whether the previous
character belonged to a whitespace run. -/
def collapseWsGo : Bool → List Char → List Char
  | _, [] => []
  | prevSpace, c :: cs =>
    if isJsSpace c then
      (if prevSpace then [] else [' ']) ++ collapseWsGo true cs
    else
      c :: collapseWsGo false cs

def collapseWsList (l : List Char) : List Char := collapseWsGo false l

/-- JavaScript `String.prototype.trim` on character lists. -/
def trimJsList (l : List Char) : List Char :=
  ((l.dropWhile isJsSpace).reverse.dropWhile isJsSpace).reverse

def jsTrim (s : String) : String := String.mk (trimJsList s.data)

/-- Split on a separator character (JavaScript `split('\n')` and friends);
the empty string splits to one empty segment. -/
def splitOnCharGo (sep : Char) : List Char → List (List Char)
  | [] => [[]]
  | c :: cs =>
    let r := splitOnCharGo sep cs
    if c = sep then [] :: r
    else
      match r with
      | [] => [[c]]
      | seg :: rest => (c :: seg) :: rest

def jsSplitOnChar (sep : Char) (s : String) : List String :=
  (splitOnCharGo sep s.data).map String.mk

/-- JavaScript `String.prototype.startsWith`. -/
def jsStartsWith (s pre : String) : Bool := pre.data.isPrefixOf s.data

/-- JavaScript `String.prototype.endsWith`. -/
def jsEndsWith (s suf : String) : Bool := suf.data.reverse.isPrefixOf s.data.reverse

/-- Substring containment on character lists (JavaScript
`String.prototype.includes`). -/
def containsSubList (needle : List Char) : List Char → Bool
  | [] => decide (needle = [])
  | c :: cs => needle.isPrefixOf (c :: cs) || containsSubList needle cs

def containsSubstr (hay needle : String) : Bool :=
  containsSubList needle.data hay.data

/-- JavaScript `split(/\s+/)`: segments between maximal whitespace runs; an
empty segment is produced at an end that touches a whitespace run, and the
empty string splits to `[""]`. -/
def splitWsGo : Nat → List Char → List (List Char)
  | 0, _ => []
  | Nat.succ fuel, l =>
    let seg := l.takeWhile (fun c => !isJsSpace c)
    let rest := l.drop seg.length
    if rest = [] then [seg]
    else seg :: splitWsGo fuel (rest.dropWhile isJsSpace)

def splitWsJs (s : String) : List String :=
  (splitWsGo (s.data.length + 1) s.data).map String.mk

/-- Decimal digit printer (fuel-based so that it unfolds by `decide`). -/
def natDigitsGo : Nat → Nat → List Char
  | 0, _ => []
  | Nat.succ fuel, n =>
    if n < 10 then [Char.ofNat (48 + n)]
    else natDigitsGo fuel (n / 10) ++ [Char.ofNat (48 + n % 10)]

def natDigits (n : Nat) : String := String.mk (natDigitsGo (n + 1) n)

/-- JavaScript `Math.min` on (non-NaN) numbers. -/
def jsMinQ (a b : ℚ) : ℚ := if b < a then b else a

/-- JavaScript `Math.max` on (non-NaN) numbers. -/
def jsMaxQ (a b : ℚ) : ℚ := if a < b then b else a

def jsMinN (a b : Nat) : Nat := if a ≤ b then a else b

def jsMaxN (a b : Nat) : Nat := if a ≤ b then b else a

/-! ### SHA-1 over Nat arithmetic modulo 2^32 -/

def u32 (n : Nat) : Nat := n % 4294967296

/-- Rotate a 32-bit word (represented as a `Nat` below `2 ^ 32`) left by
`k` bits. -/
def rotl (k n : Nat) : Nat := u32 (n * 2 ^ k) + n / 2 ^ (32 - k)

/-- UTF-8 encoding of one character (the `TextEncoder` used by the hasher). -/
def charUtf8 (c : Char) : List Nat :=
  let n := c.toNat
  if n < 128 then [n]
  else if n < 2048 then [192 + n / 64, 128 + n % 64]
  else if n < 65536 then [224 + n / 4096, 128 + n / 64 % 64, 128 + n % 64]
  else [240 + n / 262144, 128 + n / 4096 % 64, 128 + n / 64 % 64, 128 + n % 64]

def utf8Bytes (s : String) : List Nat :=
  s.data.foldr (fun c acc => charUtf8 c ++ acc) []

/-- Big-endian bytes of a 64-bit length field. -/
def beBytes8 (n : Nat) : List Nat :=
  [n / 2 ^ 56 % 256, n / 2 ^ 48 % 256, n / 2 ^ 40 % 256, n / 2 ^ 32 % 256,
   n / 2 ^ 24 % 256, n / 2 ^ 16 % 256, n / 2 ^ 8 % 256, n % 256]

def sha1Pad (msg : List Nat) : List Nat :=
  let zeros := (64 - (msg.length + 9) % 64) % 64
  msg ++ [128] ++ List.replicate zeros 0 ++ beBytes8 (msg.length * 8)

def chunksGo : Nat → List Nat → List (List Nat)
  | 0, _ => []
  | _, [] => []
  | Nat.succ fuel, l => l.take 64 :: chunksGo fuel (l.drop 64)

def beWord (b : List Nat) : Nat := b.foldl (fun a x => a * 256 + x) 0

def chunkWordsGo : Nat → List Nat → List Nat
  | 0, _ => []
  | Nat.succ fuel, l => beWord (l.take 4) :: chunkWordsGo fuel (l.drop 4)

/-- Message-schedule extension: append one word per step. -/
def sha1Extend : Nat → List Nat → List Nat
  | 0, w => w
  | Nat.succ k, w =>
    let n := w.length
    let x := Nat.xor (Nat.xor (w.getD (n - 3) 0) (w.getD (n - 8) 0))
                     (Nat.xor (w.getD (n - 14) 0) (w.getD (n - 16) 0))
    sha1Extend k (w ++ [rotl 1 x])

def sha1F (i b c d : Nat) : Nat :=
  if i < 20 then Nat.lor (Nat.land b c) (Nat.land (Nat.xor b 4294967295) d)
  else if i < 40 then Nat.xor (Nat.xor b c) d
  else if i < 60 then Nat.lor (Nat.lor (Nat.land b c) (Nat.land b d)) (Nat.land c d)
  else Nat.xor (Nat.xor b c) d

def sha1K (i : Nat) : Nat :=
  if i < 20 then 1518500249
  else if i < 40 then 1859775393
  else if i < 60 then 2400959708
  else 3395469782

def sha1Round (w : List Nat) (st : Nat × Nat × Nat × Nat × Nat) (i : Nat) :
    Nat × Nat × Nat × Nat × Nat :=
  let (a, b, c, d, e) := st
  let temp := u32 (rotl 5 a + sha1F i b c d + e + sha1K i + w.getD i 0)
  (temp, a, rotl 30 b, c, d)

def sha1Chunk (h : Nat × Nat × Nat × Nat × Nat) (chunk : List Nat) :
    Nat × Nat × Nat × Nat × Nat :=
  let w := sha1Extend 64 (chunkWordsGo 16 chunk)
  let (h0, h1, h2, h3, h4) := h
  let (a, b, c, d, e) := (List.range 80).foldl (sha1Round w) h
  (u32 (h0 + a), u32 (h1 + b), u32 (h2 + c), u32 (h3 + d), u32 (h4 + e))

def hexDigit (n : Nat) : Char :=
  if n < 10 then Char.ofNat (48 + n) else Char.ofNat (87 + n)

def hex8 (n : Nat) : String :=
  String.mk ((List.range 8).map (fun i => hexDigit (n / 2 ^ (4 * (7 - i)) % 16)))

/-- SHA-1 digest of a string as a lowercase hex string, exactly the value the
hasher obtains from `crypto.subtle.digest('SHA-1', ...)`. -/
def sha1Hex (s : String) : String :=
  let msg := sha1Pad (utf8Bytes s)
  let (h0, h1, h2, h3, h4) :=
    (chunksGo (msg.length + 1) msg).foldl sha1Chunk
      (1732584193, 4023233417, 2562383102, 271733878, 3285377520)
  hex8 h0 ++ hex8 h1 ++ hex8 h2 ++ hex8 h3 ++ hex8 h4

/-! ### JavaScript number model and `toFixed(2)` -/

/-- A JavaScript number as it reaches the hasher: an exact rational, or the
`NaN` produced by a failed amount parse. -/
inductive JsNum where
  | nan : JsNum
  | num : ℚ → JsNum
deriving DecidableEq

/-- `Number.prototype.toFixed(2)`: sign, then the magnitude rounded to two
decimals with ties away from zero (ECMA-262 picks the larger candidate).
For a magnitude `n / d` the rounded cent count `⌊100 * n / d + 1 / 2⌋` is
computed as `(200 * n + d) / (2 * d)` in `Nat` arithmetic. -/
def toFixed2 (q : ℚ) : String :=
  let neg := q < 0
  let mag : ℚ := if neg then -q else q
  let cents : Nat := (200 * mag.num.toNat + mag.den) / (2 * mag.den)
  (if neg then "-" else "") ++ natDigits (cents / 100) ++ "." ++
    (if cents % 100 < 10 then "0" else "") ++ natDigits (cents % 100)

/-! ### TransactionHasher (src/lib/clipboard-parser.ts, hasher section) -/

/-- The `MappedTransaction` record produced by the column mapper
(enhanced-import-upload.tsx). -/
structure MappedTransaction where
  date : String
  description : String
  amount : JsNum
  account : Option String := none
  category : Option String := none
  reference : Option String := none
  originalRow : List (String × String) := []
deriving DecidableEq

structure HashedTransaction extends MappedTransaction where
  hash : String
  isDuplicate : Bool
deriving DecidableEq

namespace TransactionHasher

/-- Model of the JavaScript `new Date(string)` fallback used by
`normalizeDate`, covering the `M/D/YYYY` layout of the bank exports; any
other string is treated as unparseable (the `Date` constructor's behaviour
on arbitrary strings is implementation-defined). -/
def jsDateParse (s : String) : Option String :=
  match (splitOnCharGo '/' s.data) with
  | [m, d, y] =>
    if m ≠ [] ∧ m.length ≤ 2 ∧ m.all Char.isDigit ∧
       d ≠ [] ∧ d.length ≤ 2 ∧ d.all Char.isDigit ∧
       y.length = 4 ∧ y.all Char.isDigit then
      some (String.mk y ++ "-" ++ (if m.length = 1 then "0" else "") ++ String.mk m
            ++ "-" ++ (if d.length = 1 then "0" else "") ++ String.mk d)
    else none
  | _ => none

/-- Test for the anchored pattern `^\d{4}-\d{2}-\d{2}$`. -/
def isIsoDate (s : String) : Bool :=
  match s.data with
  | [y1, y2, y3, y4, h1, m1, m2, h2, d1, d2] =>
    y1.isDigit && y2.isDigit && y3.isDigit && y4.isDigit && h1 = '-' &&
    m1.isDigit && m2.isDigit && h2 = '-' && d1.isDigit && d2.isDigit
  | _ => false

def normalizeDate (date : String) : String :=
  if date = "" then ""
  else if isIsoDate date then date
  else match jsDateParse date with
    | some iso => iso
    | none => date

def normalizeAmount : JsNum → String
  | JsNum.nan => "0.00"
  | JsNum.num q => toFixed2 q

/-- Lower-case, collapse whitespace, trim, drop characters outside
`[\w\s.-]`, truncate to 100 characters — in exactly the order the code
applies these steps. -/
def normalizeDescription (description : String) : String :=
  if description = "" then ""
  else
    let l := description.data.map Char.toLower
    let l := trimJsList (collapseWsList l)
    let l := l.filter (fun c => isJsWordChar c || isJsSpace c || c = '.' || c = '-')
    String.mk (l.take 100)

def hashInput (t : MappedTransaction) : String :=
  normalizeDate t.date ++ "|" ++ normalizeAmount t.amount ++ "|" ++
    normalizeDescription t.description

def generateHash (t : MappedTransaction) : String :=
  sha1Hex (hashInput t)

/-- The batch loop of `addHashesToTransactions` with its `seenHashes` set
threaded explicitly (`isDuplicate` is read off before the current hash is
added, exactly as in the source). -/
def addHashesGo (seen : List String) : List MappedTransaction → List HashedTransaction
  | [] => []
  | t :: ts =>
    let h := generateHash t
    { toMappedTransaction := t, hash := h, isDuplicate := seen.contains h } ::
      addHashesGo (h :: seen) ts

def addHashesToTransactions (transactions : List MappedTransaction) :
    List HashedTransaction :=
  addHashesGo [] transactions

/-- `checkForDuplicates`: flag each new transaction against a caller-supplied
set of already-known hashes. -/
def checkForDuplicates (newTransactions : List MappedTransaction)
    (existingHashes : List String) : List HashedTransaction :=
  newTransactions.map (fun t =>
    let h := generateHash t
    { toMappedTransaction := t, hash := h, isDuplicate := existingHashes.contains h })

end TransactionHasher

/-! ### ClipboardParser (src/lib/clipboard-parser.ts, parser section) -/

inductive ParseFormat where
  | tsv | csv | html | unknown
deriving DecidableEq

/-- A parsed row: a JavaScript object from header to cell text, modelled as
an association list in property insertion order. -/
def ParsedRow := List (String × String)
deriving instance DecidableEq for ParsedRow

structure ParseResult where
  headers : List String
  rows : List ParsedRow
  format : ParseFormat
deriving DecidableEq

/-- The single structural parse failure (`throw new Error('No table found in
HTML content')`). -/
inductive ParseError where
  | noTableFound
deriving DecidableEq

namespace ClipboardParser

/-- JavaScript object property assignment `rowData[header] = value`: an
existing key is updated in place, a new key is appended. -/
def jsObjSet : List (String × String) → String → String → List (String × String)
  | [], k, v => [(k, v)]
  | (k0, v0) :: rest, k, v =>
    if k0 = k then (k0, v) :: rest else (k0, v0) :: jsObjSet rest k v

/-- The regex test `/<table|<tr|<td|<th/i`. -/
def isHTML (text : String) : Bool :=
  let l := jsLower text
  containsSubstr l "<table" || containsSubstr l "<tr" ||
    containsSubstr l "<td" || containsSubstr l "<th"

def countChar (s : String) (c : Char) : Nat := s.data.count c

def isCSV (text : String) : Bool :=
  let lines := jsSplitOnChar '\n' text
  if lines.length < 2 then false
  else
    let firstLine := lines.headD ""
    let commaCount := countChar firstLine ','
    let tabCount := countChar firstLine '\t'
    tabCount < commaCount && 0 < commaCount

def isTSV (text : String) : Bool := text.data.contains '\t'

/-- The quote-aware field scanner `parseCSVLine` (RFC4180-style `""`
escaping).  The character scan of the source's `while` loop advances by one
or two characters per step; recursion is on a fuel counter that the caller
instantiates with the line length, which the loop can never exhaust. -/
def parseCSVLineGo (delimiter : Char) : Nat → Bool → List Char → List Char → List String
  | 0, _, current, _ => [String.mk current]
  | Nat.succ fuel, inQuotes, current, l =>
    match l with
    | [] => [String.mk current]
    | c :: cs =>
      if c = '"' then
        if inQuotes then
          match cs with
          | c2 :: cs2 =>
            if c2 = '"' then parseCSVLineGo delimiter fuel true (current ++ ['"']) cs2
            else parseCSVLineGo delimiter fuel false current (c2 :: cs2)
          | [] => parseCSVLineGo delimiter fuel false current []
        else parseCSVLineGo delimiter fuel true current cs
      else if c = delimiter && !inQuotes then
        String.mk current :: parseCSVLineGo delimiter fuel inQuotes [] cs
      else parseCSVLineGo delimiter fuel inQuotes (current ++ [c]) cs

def parseCSVLine (line : String) (delimiter : Char) : List String :=
  parseCSVLineGo delimiter (line.data.length + 1) false [] line.data

/-- Build `rowData` from one line's values (`values.forEach` with the
`Column N` fallback header and trimmed cell values). -/
def buildRow (headers : List String) (values : List String) : ParsedRow :=
  (values.enum).foldl
    (fun rowData iv =>
      jsObjSet rowData (headers.getD iv.1 ("Column " ++ natDigits (iv.1 + 1)))
        (jsTrim iv.2))
    []

def parseDelimitedText (text : String) (delimiter : Char) (format : ParseFormat) :
    ParseResult :=
  let lines := (jsSplitOnChar '\n' text).filter (fun line => jsTrim line ≠ "")
  match lines with
  | [] => { headers := [], rows := [], format }
  | first :: rest =>
    let headers := parseCSVLine first delimiter
    let rows := (rest.map (fun line => parseCSVLine line delimiter)).filterMap
      (fun values =>
        if values.any (fun val => jsTrim val ≠ "") then
          some (buildRow headers values)
        else none)
    { headers, rows, format }

def parseCSV (text : String) : ParseResult := parseDelimitedText text ',' ParseFormat.csv

def parseTSV (text : String) : ParseResult := parseDelimitedText text '\t' ParseFormat.tsv

def parseDelimited (text : String) : ParseResult :=
  let firstLine := (jsSplitOnChar '\n' text).headD ""
  let commaCount := countChar firstLine ','
  let tabCount := countChar firstLine '\t'
  let semicolonCount := countChar firstLine ';'
  if commaCount < tabCount && semicolonCount < tabCount then
    parseDelimitedText text '\t' ParseFormat.tsv
  else if commaCount < semicolonCount then
    parseDelimitedText text ';' ParseFormat.csv
  else if 0 < commaCount then
    parseDelimitedText text ',' ParseFormat.csv
  else
    parseDelimitedText text ' ' ParseFormat.unknown

/-- The browser `DOMParser` is external to the repository; it is modelled by
an oracle producing the text contents of the table's rows (first row =
header row), or `none` when the document contains no table element. -/
def parseHTML (dom : String → Option (List (List String))) (html : String) :
    Except ParseError ParseResult :=
  match dom html with
  | none => Except.error ParseError.noTableFound
  | some tableRows =>
    let headers := (tableRows.headD []).map jsTrim
    let dataRows := tableRows.drop 1
    let rows := (dataRows.filter (fun cells => cells ≠ [])).map
      (fun cells =>
        (cells.enum).foldl
          (fun rowData iv =>
            jsObjSet rowData (headers.getD iv.1 ("Column " ++ natDigits (iv.1 + 1)))
              (jsTrim iv.2))
          [])
    Except.ok { headers, rows, format := ParseFormat.html }

def parseText (dom : String → Option (List (List String))) (text : String) :
    Except ParseError ParseResult :=
  let trimmedText := jsTrim text
  if isHTML trimmedText then parseHTML dom trimmedText
  else if isCSV trimmedText then Except.ok (parseCSV trimmedText)
  else if isTSV trimmedText then Except.ok (parseTSV trimmedText)
  else Except.ok (parseDelimited trimmedText)

end ClipboardParser

/-! ### Mapper amount parsing (enhanced-import-upload.tsx, `parseAmount`) -/

/-- Digit-list value. -/
def digitsVal (l : List Char) : Nat :=
  l.foldl (fun a c => a * 10 + (c.toNat - 48)) 0

/-- JavaScript `parseFloat`: longest valid numeric prefix (sign, decimal
significand, optional exponent); `none` models `NaN`. -/
def jsParseFloat (s : String) : Option ℚ :=
  let l := s.data.dropWhile isJsSpace
  let sign : ℚ := if l.headD ' ' = '-' then -1 else 1
  let l1 := if l.headD ' ' = '-' || l.headD ' ' = '+' then l.drop 1 else l
  let intDigits := l1.takeWhile Char.isDigit
  let l2 := l1.drop intDigits.length
  let fracDigits := if l2.headD ' ' = '.' then (l2.drop 1).takeWhile Char.isDigit else []
  let l3 := if l2.headD ' ' = '.' then (l2.drop 1).drop fracDigits.length else l2
  if intDigits = [] ∧ fracDigits = [] then none
  else
    let mant : ℚ := (digitsVal intDigits : ℚ) +
      (digitsVal fracDigits : ℚ) / ((10 : ℚ) ^ fracDigits.length)
    let expPart : ℚ :=
      if l3.headD ' ' = 'e' || l3.headD ' ' = 'E' then
        let l4 := l3.drop 1
        let eneg := l4.headD ' ' = '-'
        let l5 := if l4.headD ' ' = '-' || l4.headD ' ' = '+' then l4.drop 1 else l4
        let expDigits := l5.takeWhile Char.isDigit
        if expDigits = [] then 1
        else if eneg then 1 / ((10 : ℚ) ^ digitsVal expDigits)
        else (10 : ℚ) ^ digitsVal expDigits
      else 1
    some (sign * mant * expPart)

/-- The currency-symbol stripper `replace(/[\$£€¥₹,\s]/g, '')`. -/
def cleanAmount (s : String) : String :=
  String.mk (s.data.filter (fun c =>
    !(c = '$' || c = '£' || c = '€' || c = '¥' || c = '₹' || c = ',' || isJsSpace c)))

/-- `parseAmount` from the import component: the Mapper's amount field. -/
def parseAmount (amountStr : String) : ℚ :=
  if amountStr = "" then 0
  else
    let cleaned := cleanAmount amountStr
    let isNegative := jsStartsWith cleaned "(" && jsEndsWith cleaned ")"
    let numberStr := String.mk (cleaned.data.filter (fun c => !(c = '(' || c = ')')))
    match jsParseFloat numberStr with
    | none => 0
    | some number => if isNegative then -number else number

/-! ### Stable sort model for `Array.prototype.sort` -/

/-- Insert `x` behind every element it does not strictly precede according to
the comparator (negative result means `x` sorts earlier). -/
def jsSortInsert (cmp : α → α → ℚ) (x : α) : List α → List α
  | [] => [x]
  | y :: ys => if cmp x y < 0 then x :: y :: ys else y :: jsSortInsert cmp x ys

/-- Stable comparator sort modelling `Array.prototype.sort`: for a consistent
comparator this is the unique stable sorted order that ECMA-262 mandates. -/
def jsSortStable (cmp : α → α → ℚ) (l : List α) : List α :=
  l.foldl (fun acc x => jsSortInsert cmp x acc) []

/-! ### Simple-regex model for the `RegExp` patterns in the rule sets -/

/-- Unescape a regex body consisting of literal characters and `\`-escapes;
`none` when the body uses any unsupported metacharacter, in which case the
test is treated as not matching (invalid patterns are skipped by the code's
`try`/`catch`). -/
def parseSimpleRegexGo : List Char → Option (List Char)
  | [] => some []
  | '\\' :: c :: rest => (parseSimpleRegexGo rest).map (fun l => c :: l)
  | '\\' :: [] => none
  | c :: rest =>
    if c = '.' || c = '*' || c = '+' || c = '?' || c = '(' || c = ')' ||
       c = '[' || c = ']' || c = Char.ofNat 123 || c = Char.ofNat 125 ||
       c = '|' || c = '^' || c = '$' then none
    else (parseSimpleRegexGo rest).map (fun l => c :: l)

/-- Model of `new RegExp(pattern, 'i').test(input)` for the anchored literal
patterns occurring in the rule stores (such as the seed pattern for Square
point-of-sale prefixes). -/
def jsRegexTestI (pattern input : String) : Bool :=
  match pattern.data with
  | '^' :: rest =>
    match parseSimpleRegexGo rest with
    | some lit => (lit.map Char.toLower).isPrefixOf (input.data.map Char.toLower)
    | none => false
  | l =>
    match parseSimpleRegexGo l with
    | some lit => containsSubList (lit.map Char.toLower) (input.data.map Char.toLower)
    | none => false

/-- `rules.find(r => r.id === ruleId)` followed by an in-place update: the
first element satisfying the predicate is replaced by `f` applied to it
(shared by both engines' `updateRuleUsage` and rule strengthening). -/
def updateFirst (p : α → Bool) (f : α → α) : List α → List α
  | [] => []
  | r :: rs => if p r then f r :: rs else r :: updateFirst p f rs

/-! ### VendorNormalizer (src/lib/clipboard-parser.ts, normalizer section) -/

structure VendorNormalizationRule where
  id : String
  pattern : String
  normalizedName : String
  confidence : ℚ
  isRegex : Bool
  isUserDefined : Bool
  useCount : Nat
  createdAt : Nat
  lastUsed : Option Nat := none
deriving DecidableEq

structure VendorMatch where
  name : String
  confidence : ℚ
  rule : VendorNormalizationRule
deriving DecidableEq

structure VendorNormalizationResult where
  originalName : String
  normalizedName : String
  confidence : ℚ
  rule : Option VendorNormalizationRule
  suggestions : List VendorMatch
  needsReview : Bool
deriving DecidableEq

/-- The mutable state of a `VendorNormalizer` instance: the `rules` array and
the `userLearningRules` cache (a `Map` from lower-cased key to a rule,
modelled by the referenced rule's id in insertion order). -/
structure VendorState where
  rules : List VendorNormalizationRule
  cache : List (String × String)
deriving DecidableEq

namespace VendorNormalizer

/-- JavaScript `Map.prototype.set`: update in place or append. -/
def jsMapSet : List (String × String) → String → String → List (String × String)
  | [], k, v => [(k, v)]
  | (k0, v0) :: rest, k, v =>
    if k0 = k then (k0, v) :: rest else (k0, v0) :: jsMapSet rest k v

def jsMapGet (m : List (String × String)) (k : String) : Option String :=
  (m.find? (fun kv => kv.1 = k)).map (fun kv => kv.2)

/-- Strip a leading banking prefix, one replacement of the anchored
alternation `/^(SQ \*|TST\*|PAYPAL \*|POS |DDA |ATM )/gi`. -/
def stripBankingMarker (l : List Char) : List Char :=
  let low := l.map Char.toLower
  if ("sq *".data).isPrefixOf low then l.drop 4
  else if ("tst*".data).isPrefixOf low then l.drop 4
  else if ("paypal *".data).isPrefixOf low then l.drop 8
  else if ("pos ".data).isPrefixOf low then l.drop 4
  else if ("dda ".data).isPrefixOf low then l.drop 4
  else if ("atm ".data).isPrefixOf low then l.drop 4
  else l

/-- One attempt of `/\s*[#*]\s*[\w\d]+/` at the head of the list, returning
the remainder after the matched span. -/
def matchIdCode (l : List Char) : Option (List Char) :=
  let l1 := l.dropWhile isJsSpace
  match l1 with
  | c :: rest =>
    if c = '#' || c = '*' then
      let rest2 := rest.dropWhile isJsSpace
      let word := rest2.takeWhile isJsWordChar
      if word = [] then none else some (rest2.drop word.length)
    else none
  | [] => none

/-- Global removal of `/\s*[#*]\s*[\w\d]+/g` (left-to-right, restarting after
each removed span). -/
def removeIdCodesGo : Nat → List Char → List Char
  | 0, l => l
  | Nat.succ fuel, [] => (fun _ => []) fuel
  | Nat.succ fuel, c :: cs =>
    match matchIdCode (c :: cs) with
    | some rest => removeIdCodesGo fuel rest
    | none => c :: removeIdCodesGo fuel cs

def removeIdCodes (l : List Char) : List Char := removeIdCodesGo l.length l

/-- One attempt of `/\s*\([^)]*\)/` at the head of the list. -/
def matchParen (l : List Char) : Option (List Char) :=
  let l1 := l.dropWhile isJsSpace
  match l1 with
  | '(' :: rest =>
    let inner := rest.takeWhile (fun c => c ≠ ')')
    match rest.drop inner.length with
    | ')' :: rem => some rem
    | _ => none
  | _ => none

/-- Removal of the first occurrence of `/\s*\([^)]*\)/` (no `g` flag on this
replacement in the source). -/
def removeFirstParenGo : Nat → List Char → List Char
  | 0, l => l
  | Nat.succ fuel, [] => (fun _ => []) fuel
  | Nat.succ fuel, c :: cs =>
    match matchParen (c :: cs) with
    | some rem => rem
    | none => c :: removeFirstParenGo fuel cs

def removeFirstParen (l : List Char) : List Char := removeFirstParenGo l.length l

/-- Removal of `/\s+[\w\d]{10,}$/`: a final word-character run of length at
least 10 preceded by whitespace, removed together with that whitespace run. -/
def removeTrailingCode (l : List Char) : List Char :=
  let rev := l.reverse
  let word := rev.takeWhile isJsWordChar
  let rest := rev.drop word.length
  if 10 ≤ word.length ∧ isJsSpace (rest.headD 'x') then
    (rest.dropWhile isJsSpace).reverse
  else l

/-- Removal of `/\s+\d{1,2}\/\d{1,2}$/`: a trailing short date preceded by
whitespace. -/
def removeTrailingDate (l : List Char) : List Char :=
  let rev := l.reverse
  let d2 := rev.takeWhile Char.isDigit
  let r1 := rev.drop d2.length
  match r1 with
  | '/' :: r2 =>
    let d1 := r2.takeWhile Char.isDigit
    let r3 := r2.drop d1.length
    if 1 ≤ d2.length ∧ d2.length ≤ 2 ∧ 1 ≤ d1.length ∧ d1.length ≤ 2 ∧
       isJsSpace (r3.headD 'x') then
      (r3.dropWhile isJsSpace).reverse
    else l
  | _ => l

/-- `preCleanVendorName`: the chain of replacements, whitespace collapsing
and trimming, falling back to the original name when the result is empty. -/
def preCleanVendorName (name : String) : String :=
  let l := stripBankingMarker name.data
  let l := removeIdCodes l
  let l := removeFirstParen l
  let l := removeTrailingCode l
  let l := removeTrailingDate l
  let cleaned := String.mk (trimJsList (collapseWsList l))
  if cleaned = "" then name else cleaned

/-- Token-level similarity used by the normalizer: tokens match when equal,
or when both exceed three characters and one contains the other. -/
def calculateWordSimilarity (str1 str2 : String) : ℚ :=
  let words1 := splitWsJs str1
  let words2 := splitWsJs str2
  let m := words1.countP (fun word1 => words2.any (fun word2 =>
    word1 = word2 ||
      (3 < word1.length && 3 < word2.length &&
        (containsSubstr word1 word2 || containsSubstr word2 word1))))
  (m : ℚ) / (jsMaxN words1.length words2.length : ℚ)

/-- Score of a single rule against the cleaned vendor name (`0` both for a
failed regex test and for a score the loop would not produce). -/
def ruleScore (rule : VendorNormalizationRule) (vendorName : String) : ℚ :=
  if rule.isRegex then
    if jsRegexTestI rule.pattern vendorName then rule.confidence else 0
  else
    let lowerName := jsLower vendorName
    let patternLower := jsLower rule.pattern
    if lowerName = patternLower then jsMinQ (rule.confidence + 1/10) 1
    else if containsSubstr lowerName patternLower || containsSubstr patternLower lowerName then
      rule.confidence *
        ((jsMinN patternLower.length lowerName.length : ℚ) /
         (jsMaxN patternLower.length lowerName.length : ℚ))
    else
      let similarity := calculateWordSimilarity lowerName patternLower
      if 7/10 < similarity then rule.confidence * similarity else 0

def findMatchingRules (rules : List VendorNormalizationRule) (vendorName : String) :
    List VendorMatch :=
  rules.filterMap (fun rule =>
    let confidence := ruleScore rule vendorName
    if 3/10 < confidence then
      some { name := rule.normalizedName, confidence, rule }
    else none)

/-- The comparator passed to `matches.sort`: confidence descending, with
`useCount` descending as tie-break for scores within `0.1`. -/
def vendorCmp (a b : VendorMatch) : ℚ :=
  let d := a.confidence - b.confidence
  if (if d < 0 then -d else d) < 1/10 then (b.rule.useCount : ℚ) - (a.rule.useCount : ℚ)
  else b.confidence - a.confidence

def bumpUsage (now : Nat) (r : VendorNormalizationRule) : VendorNormalizationRule :=
  { r with useCount := r.useCount + 1, lastUsed := some now }

/-- `normalizeVendor`: returns the result together with the successor state
(`updateRuleUsage` mutates the winning rule's usage statistics). -/
def normalizeVendorS (s : VendorState) (originalName : String) (now : Nat) :
    VendorNormalizationResult × VendorState :=
  let cleanedOriginal := preCleanVendorName originalName
  let found := findMatchingRules s.rules cleanedOriginal
  match jsSortStable vendorCmp found with
  | [] =>
    ({ originalName, normalizedName := cleanedOriginal, confidence := 3/10,
       rule := none, suggestions := [], needsReview := true }, s)
  | bestMatch :: rest =>
    ({ originalName,
       normalizedName := bestMatch.name,
       confidence := bestMatch.confidence,
       rule := some bestMatch.rule,
       suggestions := rest.take 3,
       needsReview := decide (bestMatch.confidence < 8/10) || !bestMatch.rule.isUserDefined },
     { s with rules := updateFirst (fun r => r.id = bestMatch.rule.id) (bumpUsage now) s.rules })

/-- `findExistingUserRule`, reduced to the id of the rule it returns: the
learning cache is consulted first, then a scan for a user rule with the same
corrected name whose pattern contains the cleaned original. -/
def findExistingUserRuleId (s : VendorState) (originalName correctedName : String) :
    Option String :=
  let lowerOriginal := jsLower originalName
  match jsMapGet s.cache lowerOriginal with
  | some rid => some rid
  | none =>
    (s.rules.find? (fun rule =>
      rule.isUserDefined &&
      jsLower rule.normalizedName = jsLower correctedName &&
      containsSubstr (jsLower rule.pattern) lowerOriginal)).map
      (fun rule => rule.id)

/-- `extractPatternsFromCorrection`: the first whitespace-separated part of
the cleaned original longer than two characters, lower-cased. -/
def extractPrimaryPattern (original : String) : String :=
  let significantParts := (splitWsJs original).filter (fun part => 2 < part.length)
  jsLower (significantParts.headD original)

def strengthenRule (now : Nat) (r : VendorNormalizationRule) : VendorNormalizationRule :=
  { r with confidence := jsMinQ (19/20) (r.confidence + 1/10),
           useCount := r.useCount + 1, lastUsed := some now }

/-- `learnFromCorrection` (the produced rule is the first component). -/
def learnFromCorrectionS (s : VendorState) (originalName userCorrectedName : String)
    (uuid : String) (now : Nat) : VendorState :=
  let cleanedOriginal := preCleanVendorName originalName
  match findExistingUserRuleId s cleanedOriginal userCorrectedName with
  | some rid => { s with rules := updateFirst (fun r => r.id = rid) (strengthenRule now) s.rules }
  | none =>
    let newRule : VendorNormalizationRule :=
      { id := uuid, pattern := extractPrimaryPattern cleanedOriginal,
        normalizedName := userCorrectedName, confidence := 9/10,
        isRegex := false, isUserDefined := true, useCount := 1,
        createdAt := now, lastUsed := some now }
    { rules := s.rules ++ [newRule],
      cache := jsMapSet s.cache (jsLower cleanedOriginal) uuid }

/-- `updateUserLearningCache`: rebuild the cache from the user-defined rules,
keyed by lower-cased pattern. -/
def buildCache (rules : List VendorNormalizationRule) : List (String × String) :=
  rules.foldl (fun m rule =>
    if rule.isUserDefined then jsMapSet m (jsLower rule.pattern) rule.id else m) []

def exportRulesS (s : VendorState) : List VendorNormalizationRule :=
  s.rules.filter (fun rule => rule.isUserDefined)

def importRulesS (s : VendorState) (rules : List VendorNormalizationRule) : VendorState :=
  let newRules := s.rules.filter (fun rule => !rule.isUserDefined) ++ rules
  { rules := newRules, cache := buildCache newRules }

/-- The module-level `DEFAULT_NORMALIZATION_RULES` seed list (`new Date()`
creation stamps are modelled as time `0`). -/
def DEFAULT_NORMALIZATION_RULES : List VendorNormalizationRule :=
  [{ id := "amazon-1", pattern := "amzn", normalizedName := "Amazon",
     confidence := 19/20, isRegex := false, isUserDefined := false, useCount := 0, createdAt := 0 },
   { id := "amazon-2", pattern := "amazon", normalizedName := "Amazon",
     confidence := 19/20, isRegex := false, isUserDefined := false, useCount := 0, createdAt := 0 },
   { id := "walmart-1", pattern := "wal-mart", normalizedName := "Walmart",
     confidence := 19/20, isRegex := false, isUserDefined := false, useCount := 0, createdAt := 0 },
   { id := "walmart-2", pattern := "walmart", normalizedName := "Walmart",
     confidence := 19/20, isRegex := false, isUserDefined := false, useCount := 0, createdAt := 0 },
   { id := "starbucks-1", pattern := "starbucks", normalizedName := "Starbucks",
     confidence := 19/20, isRegex := false, isUserDefined := false, useCount := 0, createdAt := 0 },
   { id := "starbucks-2", pattern := "sbux", normalizedName := "Starbucks",
     confidence := 9/10, isRegex := false, isUserDefined := false, useCount := 0, createdAt := 0 },
   { id := "mcdonalds-1", pattern := "mcdonalds", normalizedName := "McDonald's",
     confidence := 19/20, isRegex := false, isUserDefined := false, useCount := 0, createdAt := 0 },
   { id := "mcdonalds-2", pattern := "mcdonald", normalizedName := "McDonald's",
     confidence := 9/10, isRegex := false, isUserDefined := false, useCount := 0, createdAt := 0 },
   { id := "shell-1", pattern := "shell", normalizedName := "Shell",
     confidence := 9/10, isRegex := false, isUserDefined := false, useCount := 0, createdAt := 0 },
   { id := "chevron-1", pattern := "chevron", normalizedName := "Chevron",
     confidence := 9/10, isRegex := false, isUserDefined := false, useCount := 0, createdAt := 0 },
   { id := "netflix-1", pattern := "netflix", normalizedName := "Netflix",
     confidence := 19/20, isRegex := false, isUserDefined := false, useCount := 0, createdAt := 0 },
   { id := "target-1", pattern := "target", normalizedName := "Target",
     confidence := 9/10, isRegex := false, isUserDefined := false, useCount := 0, createdAt := 0 },
   { id := "square-1", pattern := "^sq \\*", normalizedName := "Local Business",
     confidence := 3/5, isRegex := true, isUserDefined := false, useCount := 0, createdAt := 0 }]

/-- The constructor: seed rules first, then the caller-supplied rules, and
the learning cache built from the user-defined ones. -/
def mkVendorNormalizer (existingRules : List VendorNormalizationRule) : VendorState :=
  let rules := DEFAULT_NORMALIZATION_RULES ++ existingRules
  { rules, cache := buildCache rules }

end VendorNormalizer

/-! ### AutoCategorizer (src/lib/auto-categorizer.ts) -/

/-- A categorization rule; the fields that are optional in the TypeScript
interface are `Option`-valued, and JavaScript truthiness on them is tested
with `isTruthy`. -/
structure CategoryRule where
  id : String
  user_id : Option String := none
  name : String
  category : String
  patterns : List String
  isRegex : Option Bool := none
  isActive : Option Bool := none
  confidence : Option ℚ := none
  createdAt : Option Nat := none
  lastUsed : Option Nat := none
  useCount : Option Nat := none
  isUserDefined : Option Bool := none
deriving DecidableEq

/-- Truthiness of an optional boolean field (`undefined` and `false` are
falsy). -/
def isTruthy : Option Bool → Bool
  | some true => true
  | _ => false

/-- JavaScript `rule.confidence || 0.8`: `undefined` and `0` fall back. -/
def confOrDefault (o : Option ℚ) (d : ℚ) : ℚ :=
  match o with
  | some q => if q = 0 then d else q
  | none => d

structure CategoryMatch where
  rule : CategoryRule
  confidence : ℚ
deriving DecidableEq

structure CategoryAlternative where
  category : String
  confidence : ℚ
  rule : CategoryRule
deriving DecidableEq

structure AutoCategorizationResult where
  originalDescription : String
  suggestedCategory : Option String
  matchedRule : Option CategoryRule
  confidence : ℚ
  alternatives : List CategoryAlternative
deriving DecidableEq

/-- The mutable state of an `AutoCategorizer` instance. -/
structure CategorizerState where
  rules : List CategoryRule
  userCategories : List String
  userId : Option String := none
deriving DecidableEq

namespace AutoCategorizer

/-- The categorizer's `normalizeDescription`: lower-case, digit runs to `#`,
other specials to spaces, whitespace collapsed, trimmed. -/
def digitRunsToHashGo : Bool → List Char → List Char
  | _, [] => []
  | prevDigit, c :: cs =>
    if c.isDigit then
      (if prevDigit then [] else ['#']) ++ digitRunsToHashGo true cs
    else c :: digitRunsToHashGo false cs

def normalizeDescription (description : String) : String :=
  let l := description.data.map Char.toLower
  let l := digitRunsToHashGo false l
  let l := l.map (fun c => if isJsWordChar c || isJsSpace c || c = '#' then c else ' ')
  String.mk (trimJsList (collapseWsList l))

/-- Classic Levenshtein distance (the `editDistance` DP table, computed row
by row). -/
def edRowGo (c2 : Char) : List Char → List Nat → Nat → Nat → List Nat
  | [], _, _, _ => []
  | c1 :: cs, pRest, diag, left =>
    let above := pRest.headD 0
    let cost := Nat.min (left + 1) (Nat.min (above + 1) (diag + (if c1 = c2 then 0 else 1)))
    cost :: edRowGo c2 cs pRest.tail above cost

def edStep (s1 : List Char) (prevRow : List Nat) (c2 : Char) : List Nat :=
  let newHead := prevRow.headD 0 + 1
  newHead :: edRowGo c2 s1 (prevRow.drop 1) (prevRow.headD 0) newHead

def editDistance (str1 str2 : String) : Nat :=
  (str2.data.foldl (edStep str1.data) (List.range (str1.data.length + 1))).getLastD 0

/-- `calculateWordSimilarity` of the categorizer: edit distance normalised by
the longer word's length. -/
def wordSimilarity (word1 word2 : String) : ℚ :=
  if word1 = word2 then 1
  else if word1.length = 0 || word2.length = 0 then 0
  else
    jsMaxQ 0 (1 - (editDistance word1 word2 : ℚ) / (jsMaxN word1.length word2.length : ℚ))

/-- Score contributed by one pattern of a rule. -/
def patternScore (description : String) (rule : CategoryRule) (pattern : String) : ℚ :=
  if isTruthy rule.isRegex then
    if jsRegexTestI pattern description then confOrDefault rule.confidence (4/5) else 0
  else
    let normalizedPattern := jsLower pattern
    if containsSubstr description normalizedPattern then confOrDefault rule.confidence (4/5)
    else
      let descriptionWords := splitWsJs description
      let patternWords := splitWsJs normalizedPattern
      let matchingWords := patternWords.countP (fun patternWord =>
        descriptionWords.any (fun descWord => 4/5 < wordSimilarity descWord patternWord))
      let matchRatio : ℚ := (matchingWords : ℚ) / (patternWords.length : ℚ)
      if 1/2 < matchRatio then confOrDefault rule.confidence (4/5) * matchRatio else 0

/-- `calculateMatchConfidence`: the maximum over the rule's patterns. -/
def calculateMatchConfidence (description : String) (rule : CategoryRule) : ℚ :=
  rule.patterns.foldl (fun acc pattern => jsMaxQ acc (patternScore description rule pattern)) 0

/-- The candidate filter of `categorizeTransaction`: inactive rules are
skipped, and non-user rules whose category is outside a non-empty caller
category set are skipped. -/
def candidateMatches (s : CategorizerState) (normalizedDescription : String) :
    List CategoryMatch :=
  s.rules.filterMap (fun rule =>
    if !isTruthy rule.isActive then none
    else if !isTruthy rule.isUserDefined && !s.userCategories.isEmpty &&
            !s.userCategories.contains rule.category then none
    else
      let confidence := calculateMatchConfidence normalizedDescription rule
      if 0 < confidence then some { rule, confidence } else none)

/-- `b.rule.useCount! - a.rule.useCount!` with the ECMA rule that a `NaN`
comparator result (from an `undefined` use count) counts as `0`. -/
def useCountDiff (b a : CategoryRule) : ℚ :=
  match b.useCount, a.useCount with
  | some bu, some au => (bu : ℚ) - (au : ℚ)
  | _, _ => 0

/-- The categorizer's comparator: user-defined rules first, then confidence,
with `useCount` tie-break for scores within `0.1`. -/
def categoryCmp (a b : CategoryMatch) : ℚ :=
  if isTruthy a.rule.isUserDefined && !isTruthy b.rule.isUserDefined then -1
  else if !isTruthy a.rule.isUserDefined && isTruthy b.rule.isUserDefined then 1
  else
    let d := a.confidence - b.confidence
    if (if d < 0 then -d else d) < 1/10 then useCountDiff b.rule a.rule
    else b.confidence - a.confidence

/-- The ranked candidate list (`matches` after `matches.sort`). -/
def rankedMatches (s : CategorizerState) (description : String) : List CategoryMatch :=
  jsSortStable categoryCmp (candidateMatches s (normalizeDescription description))

def bumpCatUsage (now : Nat) (r : CategoryRule) : CategoryRule :=
  { r with useCount := some (r.useCount.getD 0 + 1), lastUsed := some now }

/-- `categorizeTransaction`: result plus successor state. -/
def categorizeTransactionS (s : CategorizerState) (description : String) (now : Nat) :
    AutoCategorizationResult × CategorizerState :=
  match rankedMatches s description with
  | [] =>
    ({ originalDescription := description, suggestedCategory := none,
       matchedRule := none, confidence := 0, alternatives := [] }, s)
  | bestMatch :: rest =>
    ({ originalDescription := description,
       suggestedCategory := some bestMatch.rule.category,
       matchedRule := some bestMatch.rule,
       confidence := bestMatch.confidence,
       alternatives := (rest.take 3).map (fun m =>
         { category := m.rule.category, confidence := m.confidence, rule := m.rule }) },
     { s with rules := updateFirst (fun r => r.id = bestMatch.rule.id) (bumpCatUsage now) s.rules })

def getUserDefinedRulesS (s : CategorizerState) : List CategoryRule :=
  s.rules.filter (fun rule => isTruthy rule.isUserDefined)

/-- `loadUserRules`: replace the user-defined block; each loaded rule's
`isActive` is rewritten to `rule.isActive !== false`. -/
def loadUserRulesS (s : CategorizerState) (userRules : List CategoryRule) :
    CategorizerState :=
  { s with rules := s.rules.filter (fun rule => !isTruthy rule.isUserDefined) ++
      userRules.map (fun rule => { rule with isActive := some (rule.isActive ≠ some false) }) }

/-- The module-level `DEFAULT_RULES` seed list. -/
def DEFAULT_RULES : List CategoryRule :=
  [{ id := "grocery-1", name := "Grocery Stores", category := "Groceries",
     patterns := ["walmart", "target", "safeway", "kroger", "whole foods",
                  "trader joes", "costco", "sams club"],
     confidence := some (9/10), isActive := some true, useCount := some 0, createdAt := some 0 },
   { id := "restaurant-1", name := "Restaurants", category := "Dining Out",
     patterns := ["restaurant", "cafe", "coffee", "starbucks", "mcdonalds",
                  "burger", "pizza", "chipotle"],
     confidence := some (17/20), isActive := some true, useCount := some 0, createdAt := some 0 },
   { id := "gas-1", name := "Gas Stations", category := "Transportation",
     patterns := ["shell", "chevron", "exxon", "bp", "mobil", "gas station", "fuel"],
     confidence := some (9/10), isActive := some true, useCount := some 0, createdAt := some 0 },
   { id := "transport-1", name := "Public Transportation", category := "Transportation",
     patterns := ["uber", "lyft", "taxi", "metro", "bus fare", "parking", "toll"],
     confidence := some (9/10), isActive := some true, useCount := some 0, createdAt := some 0 },
   { id := "utilities-1", name := "Utilities", category := "Utilities",
     patterns := ["electric", "gas bill", "water", "internet", "phone bill", "cable", "utility"],
     confidence := some (9/10), isActive := some true, useCount := some 0, createdAt := some 0 },
   { id := "shopping-1", name := "Retail Shopping", category := "Shopping",
     patterns := ["amazon", "ebay", "store", "mall", "retail", "purchase"],
     confidence := some (7/10), isActive := some true, useCount := some 0, createdAt := some 0 },
   { id := "healthcare-1", name := "Healthcare", category := "Healthcare",
     patterns := ["hospital", "doctor", "pharmacy", "medical", "clinic", "dentist",
                  "cvs", "walgreens"],
     confidence := some (17/20), isActive := some true, useCount := some 0, createdAt := some 0 },
   { id := "entertainment-1", name := "Entertainment", category := "Entertainment",
     patterns := ["netflix", "spotify", "movie", "theater", "cinema", "game", "entertainment"],
     confidence := some (4/5), isActive := some true, useCount := some 0, createdAt := some 0 },
   { id := "salary-1", name := "Salary", category := "Income",
     patterns := ["salary", "payroll", "wages", "direct deposit", "paycheck"],
     confidence := some (9/10), isActive := some true, useCount := some 0, createdAt := some 0 }]

/-- The constructor: seed rules first, then the caller's initial rules. -/
def mkAutoCategorizer (initialRules : List CategoryRule) (userCategories : List String)
    (userId : Option String) : CategorizerState :=
  { rules := DEFAULT_RULES ++ initialRules, userCategories, userId }

end AutoCategorizer

/-! ### Auxiliary values used by the theorems below -/

instance : DecidableEq (Except ParseError ParseResult) := fun a b =>
  match a, b with
  | Except.ok x, Except.ok y =>
    if h : x = y then isTrue (by rw [h]) else isFalse (fun hh => h (Except.ok.inj hh))
  | Except.error x, Except.error y =>
    if h : x = y then isTrue (by rw [h]) else isFalse (fun hh => h (Except.error.inj hh))
  | Except.ok _, Except.error _ => isFalse (fun hh => Except.noConfusion hh)
  | Except.error _, Except.ok _ => isFalse (fun hh => Except.noConfusion hh)

/-- Default values for `List.getD` in index-wise statements. -/
def mappedW : MappedTransaction :=
  { date := "", description := "", amount := JsNum.num 0 }

def hashedW : HashedTransaction :=
  { toMappedTransaction := mappedW, hash := "", isDuplicate := false }

def vendorRuleW : VendorNormalizationRule :=
  { id := "", pattern := "", normalizedName := "", confidence := 0,
    isRegex := false, isUserDefined := false, useCount := 0, createdAt := 0 }

def categoryRuleW : CategoryRule :=
  { id := "", name := "", category := "", patterns := [] }

def vendorMatchW : VendorMatch := { name := "", confidence := 0, rule := vendorRuleW }

/-- The spec's equivalence on descriptions, stated from the spec's words for
claim C2: two descriptions "differ only in letter casing, whitespace runs,
or characters outside word characters, spaces, `.`, `-`" exactly when they
agree after lower-casing, dropping the disallowed characters, and
normalising whitespace runs. -/
def specDescCanon (d : String) : String :=
  String.mk (trimJsList (collapseWsList
    ((d.data.map Char.toLower).filter
      (fun c => isJsWordChar c || isJsSpace c || c = '.' || c = '-'))))

def specDescEquiv (d1 d2 : String) : Bool := specDescCanon d1 = specDescCanon d2

/-- A user-taught rule colliding with the `sbux` seed rule (claim C5). -/
def sbuxUserRule : VendorNormalizationRule :=
  { id := "user-sbux", pattern := "sbux", normalizedName := "User Coffee",
    confidence := 9/10, isRegex := false, isUserDefined := true,
    useCount := 0, createdAt := 0 }

/-- Two user rules sharing one id (claim C9): the second matches, the first
does not. -/
def dupRuleA : VendorNormalizationRule :=
  { id := "dup", pattern := "qqqq", normalizedName := "Rule A",
    confidence := 9/10, isRegex := false, isUserDefined := true,
    useCount := 0, createdAt := 0 }

def dupRuleB : VendorNormalizationRule :=
  { id := "dup", pattern := "zzqq", normalizedName := "Rule B",
    confidence := 9/10, isRegex := false, isUserDefined := true,
    useCount := 7, createdAt := 0 }

/-- A user-defined categorization rule whose category lies outside the
caller's category set (claim C6). -/
def outsideCategoryRule : CategoryRule :=
  { id := "fun-1", name := "Fun", category := "Fun", patterns := ["zzqq"],
    isActive := some true, confidence := some (9/10),
    isUserDefined := some true, useCount := some 0 }

/-- A user-defined categorization rule whose `isActive` field was never set
(claim C7): skipped by matching, but activated by a load round-trip. -/
def undefActiveRule : CategoryRule :=
  { id := "u-1", name := "X", category := "X", patterns := ["zzqq"],
    isUserDefined := some true, confidence := some (9/10), useCount := some 0 }

/-- The transactions of the spec's repeated-batch scenario (claim C1). -/
def walmartTxn : MappedTransaction :=
  { date := "2024-01-15", description := "WALMART SUPERCENTER",
    amount := JsNum.num (12543/100) }

/-! ### Sanity checks of the SHA-1 embedding against published test vectors -/

set_option maxRecDepth 40000 in
theorem sha1Hex_abc : sha1Hex "abc" = "a9993e364706816aba3e25717850c26c9cd0d89d" := by decide

set_option maxRecDepth 40000 in
theorem sha1Hex_empty : sha1Hex "" = "da39a3ee5e6b4b0d3255bfef95601890afd80709" := by decide

/-! ### Helper lemmas -/

theorem jsSortInsert_mem {α : Type} (cmp : α → α → ℚ) (x a : α) :
    ∀ l : List α, a ∈ jsSortInsert cmp x l ↔ a = x ∨ a ∈ l
  | [] => by simp [jsSortInsert]
  | y :: ys => by
    simp only [jsSortInsert]
    by_cases h : cmp x y < 0
    · simp only [if_pos h, List.mem_cons]
    · simp only [if_neg h, List.mem_cons, jsSortInsert_mem cmp x a ys]
      tauto

theorem jsSortStable_mem_aux {α : Type} (cmp : α → α → ℚ) (a : α) :
    ∀ (l acc : List α),
      a ∈ List.foldl (fun acc x => jsSortInsert cmp x acc) acc l ↔ a ∈ acc ∨ a ∈ l
  | [], acc => by simp
  | x :: xs, acc => by
    simp only [List.foldl_cons]
    rw [jsSortStable_mem_aux cmp a xs (jsSortInsert cmp x acc), jsSortInsert_mem]
    simp only [List.mem_cons]
    tauto

theorem jsSortStable_mem {α : Type} (cmp : α → α → ℚ) (a : α) (l : List α) :
    a ∈ jsSortStable cmp l ↔ a ∈ l := by
  unfold jsSortStable
  rw [jsSortStable_mem_aux]
  simp

theorem jsSortInsert_userFirst {α : Type} (cmp : α → α → ℚ) (P : α → Bool)
    (h1 : ∀ a b, P a = true → P b = false → cmp a b < 0)
    (h2 : ∀ a b, P a = false → P b = true → ¬cmp a b < 0) (x : α) :
    ∀ l : List α, l.Pairwise (fun a b => P b = true → P a = true) →
      (jsSortInsert cmp x l).Pairwise (fun a b => P b = true → P a = true)
  | [], _ => by simp [jsSortInsert]
  | y :: ys, hl => by
    rcases List.pairwise_cons.mp hl with ⟨hy, hys⟩
    simp only [jsSortInsert]
    by_cases hc : cmp x y < 0
    · rw [if_pos hc]
      refine List.pairwise_cons.mpr ⟨?_, hl⟩
      intro z hz hPz
      rcases Bool.eq_false_or_eq_true (P x) with hPx | hPx
      · exact hPx
      · have hPy : P y = true := by
          rcases List.mem_cons.mp hz with rfl | hzys
          · exact hPz
          · exact hy z hzys hPz
        exact absurd hc (h2 x y hPx hPy)
    · rw [if_neg hc]
      refine List.pairwise_cons.mpr ⟨?_, jsSortInsert_userFirst cmp P h1 h2 x ys hys⟩
      intro z hz hPz
      rcases (jsSortInsert_mem cmp x z ys).mp hz with rfl | hzys
      · rcases Bool.eq_false_or_eq_true (P y) with hPy | hPy
        · exact hPy
        · exact absurd (h1 z y hPz hPy) hc
      · exact hy z hzys hPz

theorem jsSortStable_userFirst_aux {α : Type} (cmp : α → α → ℚ) (P : α → Bool)
    (h1 : ∀ a b, P a = true → P b = false → cmp a b < 0)
    (h2 : ∀ a b, P a = false → P b = true → ¬cmp a b < 0) :
    ∀ (l acc : List α), acc.Pairwise (fun a b => P b = true → P a = true) →
      (List.foldl (fun acc x => jsSortInsert cmp x acc) acc l).Pairwise
        (fun a b => P b = true → P a = true)
  | [], _, h => h
  | x :: xs, acc, h =>
    jsSortStable_userFirst_aux cmp P h1 h2 xs (jsSortInsert cmp x acc)
      (jsSortInsert_userFirst cmp P h1 h2 x acc h)

theorem jsSortStable_userFirst {α : Type} (cmp : α → α → ℚ) (P : α → Bool)
    (h1 : ∀ a b, P a = true → P b = false → cmp a b < 0)
    (h2 : ∀ a b, P a = false → P b = true → ¬cmp a b < 0) (l : List α) :
    (jsSortStable cmp l).Pairwise (fun a b => P b = true → P a = true) :=
  jsSortStable_userFirst_aux cmp P h1 h2 l [] (List.Pairwise.nil)

theorem updateFirst_length {α : Type} (p : α → Bool) (f : α → α) :
    ∀ l : List α, (updateFirst p f l).length = l.length
  | [] => rfl
  | r :: rs => by
    simp only [updateFirst]
    by_cases h : p r <;> simp [h, updateFirst_length p f rs]

theorem updateFirst_key_frame {α β : Type} [DecidableEq β] (key : α → β) (f : α → α)
    (w : α) : ∀ (l : List α) (r : α), (l.map key).Nodup → r ∈ l →
    ∃ i, i < l.length ∧ l.getD i w = r ∧
      (updateFirst (fun x => key x = key r) f l).getD i w = f r ∧
      ∀ j, j ≠ i → (updateFirst (fun x => key x = key r) f l).getD j w = l.getD j w
  | [], r, _, hm => absurd hm (List.not_mem_nil r)
  | x :: xs, r, hnd, hm => by
    have hnd' : key x ∉ xs.map key ∧ (xs.map key).Nodup := by
      rw [List.map_cons, List.nodup_cons] at hnd
      exact hnd
    by_cases hk : key x = key r
    · have hrx : r = x := by
        rcases List.mem_cons.mp hm with rfl | hmxs
        · rfl
        · exact absurd (hk ▸ List.mem_map_of_mem key hmxs) hnd'.1
      subst hrx
      refine ⟨0, by simp, by simp, ?_, ?_⟩
      · simp [updateFirst]
      · intro j hj
        match j with
        | 0 => exact absurd rfl hj
        | Nat.succ j' => simp [updateFirst]
    · have hmxs : r ∈ xs := by
        rcases List.mem_cons.mp hm with rfl | hmxs
        · exact absurd rfl hk
        · exact hmxs
      obtain ⟨i, hi, hgi, hgu, hfr⟩ := updateFirst_key_frame key f w xs r hnd'.2 hmxs
      refine ⟨i + 1, by simpa using hi, by simpa using hgi, ?_, ?_⟩
      · simpa [updateFirst, hk] using hgu
      · intro j hj
        match j with
        | 0 => simp [updateFirst, hk]
        | Nat.succ j' =>
          have hj' : j' ≠ i := fun hh => hj (by rw [hh])
          simpa [updateFirst, hk] using hfr j' hj'

theorem stringContains_iff_mem (l : List String) (a : String) :
    l.contains a = true ↔ a ∈ l :=
  List.elem_iff

theorem addHashesGo_length : ∀ (seen : List String) (ts : List MappedTransaction),
    (TransactionHasher.addHashesGo seen ts).length = ts.length
  | _, [] => rfl
  | seen, t :: ts => by
    simp [TransactionHasher.addHashesGo, addHashesGo_length]

set_option maxHeartbeats 1000000 in
theorem addHashesGo_getD : ∀ (ts : List MappedTransaction) (seen : List String) (i : Nat),
    i < ts.length →
    ((TransactionHasher.addHashesGo seen ts).getD i hashedW).toMappedTransaction =
      ts.getD i mappedW ∧
    ((TransactionHasher.addHashesGo seen ts).getD i hashedW).hash =
      TransactionHasher.generateHash (ts.getD i mappedW) ∧
    (((TransactionHasher.addHashesGo seen ts).getD i hashedW).isDuplicate = true ↔
      TransactionHasher.generateHash (ts.getD i mappedW) ∈ seen ∨
      TransactionHasher.generateHash (ts.getD i mappedW) ∈
        (ts.take i).map TransactionHasher.generateHash)
  | [], _, i, hi => absurd hi (by simp)
  | t :: ts, seen, 0, _ => by
    simp only [TransactionHasher.addHashesGo, List.getD_cons_zero, List.take_zero,
      List.map_nil, List.not_mem_nil, or_false]
    refine ⟨trivial, trivial, ?_⟩
    exact stringContains_iff_mem seen _
  | t :: ts, seen, Nat.succ i, hi => by
    have ih := addHashesGo_getD ts (TransactionHasher.generateHash t :: seen) i
      (by simpa using hi)
    rcases ih with ⟨h1, h2, h3⟩
    simp only [TransactionHasher.addHashesGo, List.getD_cons_succ, List.take_succ_cons,
      List.map_cons]
    refine ⟨h1, h2, ?_⟩
    rw [h3]
    simp only [List.mem_cons]
    exact or_assoc.trans or_left_comm

/-! ### Claim C1 -/

/-- C1: the batch hashing operation `addHashesToTransactions` keeps every
transaction, in input order, assigns each its content hash, and flags a
transaction as duplicate exactly when an earlier transaction of the same
batch produced the same hash — so the first occurrence of every hash value
has `isDuplicate = false` and all later occurrences have
`isDuplicate = true`. -/
theorem C1_addHashes_first_occurrence_dedup (ts : List MappedTransaction) (i : Nat)
    (hi : i < ts.length) :
    (TransactionHasher.addHashesToTransactions ts).length = ts.length ∧
    ((TransactionHasher.addHashesToTransactions ts).getD i hashedW).toMappedTransaction =
      ts.getD i mappedW ∧
    ((TransactionHasher.addHashesToTransactions ts).getD i hashedW).hash =
      TransactionHasher.generateHash (ts.getD i mappedW) ∧
    (((TransactionHasher.addHashesToTransactions ts).getD i hashedW).isDuplicate = true ↔
      TransactionHasher.generateHash (ts.getD i mappedW) ∈
        (ts.take i).map TransactionHasher.generateHash) := by
  unfold TransactionHasher.addHashesToTransactions
  obtain ⟨h1, h2, h3⟩ := addHashesGo_getD ts [] i hi
  refine ⟨addHashesGo_length [] ts, h1, h2, ?_⟩
  rw [h3]
  simp

/-- Witness for C1 at the spec's repeated-transaction batch. -/
theorem C1_addHashes_first_occurrence_dedup_witness :
    1 < ([walmartTxn, walmartTxn] : List MappedTransaction).length ∧
    ((((TransactionHasher.addHashesToTransactions [walmartTxn, walmartTxn]).getD 1
        hashedW).isDuplicate = true) ↔
      TransactionHasher.generateHash (([walmartTxn, walmartTxn] : List _).getD 1 mappedW) ∈
        (([walmartTxn, walmartTxn] : List _).take 1).map TransactionHasher.generateHash) :=
  ⟨by decide,
   (C1_addHashes_first_occurrence_dedup [walmartTxn, walmartTxn] 1 (by decide)).2.2.2⟩

set_option maxRecDepth 100000 in
/-- Sanity: the repeated transaction in the spec's batch really is flagged
and the first occurrence is not (computed through the SHA-1 embedding). -/
theorem addHashes_walmart_pair_flags :
    ((TransactionHasher.addHashesToTransactions [walmartTxn, walmartTxn]).getD 0
        hashedW).isDuplicate = false ∧
    ((TransactionHasher.addHashesToTransactions [walmartTxn, walmartTxn]).getD 1
        hashedW).isDuplicate = true := by
  constructor
  · decide
  · decide

/-! ### Claim C2 -/

set_option maxRecDepth 100000 in
/-- C2 counterexample: the descriptions `"a ! b"` and `"a b"` differ only in
punctuation and whitespace-run length (they agree under the spec's
canonicalisation `specDescEquiv`), the two transactions agree on date and
amount, and yet their hashes differ — because the code removes disallowed
characters only after collapsing whitespace, leaving a double space in
`"a ! b"`. -/
theorem C2_hash_insensitivity_counterexample :
    specDescEquiv "a ! b" "a b" = true ∧
    TransactionHasher.generateHash
        { date := "2024-01-15", description := "a ! b", amount := JsNum.num 1 } ≠
      TransactionHasher.generateHash
        { date := "2024-01-15", description := "a b", amount := JsNum.num 1 } := by
  refine ⟨by decide, ?_⟩
  decide

/-- C2 (amended): the hash is deterministic, and transactions agreeing on
date and normalized amount whose descriptions agree after the code's own
normalization (lower-case, collapse whitespace, trim, then drop characters
outside word characters, whitespace, `.`, `-`, truncate to 100) hash
identically.  Descriptions that differ only in casing or pure whitespace
runs (such as `"Foo  Bar"` vs `"foo bar"`) satisfy this; removing a
disallowed character adjacent to spaces can break it. -/
theorem C2_hash_determinism_amended :
    (∀ t : MappedTransaction,
      TransactionHasher.generateHash t = TransactionHasher.generateHash t) ∧
    (∀ t1 t2 : MappedTransaction, t1.date = t2.date →
      TransactionHasher.normalizeAmount t1.amount =
        TransactionHasher.normalizeAmount t2.amount →
      TransactionHasher.normalizeDescription t1.description =
        TransactionHasher.normalizeDescription t2.description →
      TransactionHasher.generateHash t1 = TransactionHasher.generateHash t2) := by
  refine ⟨fun t => rfl, fun t1 t2 hd ha hdesc => ?_⟩
  unfold TransactionHasher.generateHash TransactionHasher.hashInput
  rw [hd, ha, hdesc]

/-- Witness for C2 at the spec's example pair `"Foo  Bar"` / `"foo bar"`. -/
theorem C2_hash_determinism_amended_witness :
    TransactionHasher.normalizeDescription "Foo  Bar" =
      TransactionHasher.normalizeDescription "foo bar" ∧
    TransactionHasher.generateHash
        { date := "2024-01-15", description := "Foo  Bar", amount := JsNum.num 1 } =
      TransactionHasher.generateHash
        { date := "2024-01-15", description := "foo bar", amount := JsNum.num 1 } :=
  ⟨by decide,
   C2_hash_determinism_amended.2
     { date := "2024-01-15", description := "Foo  Bar", amount := JsNum.num 1 }
     { date := "2024-01-15", description := "foo bar", amount := JsNum.num 1 }
     rfl rfl (by decide)⟩

/-! ### Claim C10 -/

/-- C10: the hasher normalizes a `NaN` amount to the string `"0.00"`, so a
transaction whose amount failed to parse hashes identically to the same
transaction with amount `0` and collides with it in deduplication. -/
theorem C10_nan_amount_collides_with_zero :
    TransactionHasher.normalizeAmount JsNum.nan = "0.00" ∧
    ∀ t : MappedTransaction, t.amount = JsNum.nan →
      TransactionHasher.generateHash t =
        TransactionHasher.generateHash { t with amount := JsNum.num 0 } := by
  refine ⟨rfl, fun t h => ?_⟩
  unfold TransactionHasher.generateHash TransactionHasher.hashInput
  rw [h]
  rfl

/-- Witness for C10 at a concrete unparseable-amount transaction. -/
theorem C10_nan_amount_collides_with_zero_witness :
    ({ date := "2024-01-15", description := "ACME", amount := JsNum.nan } :
        MappedTransaction).amount = JsNum.nan ∧
    TransactionHasher.generateHash
        { date := "2024-01-15", description := "ACME", amount := JsNum.nan } =
      TransactionHasher.generateHash
        { date := "2024-01-15", description := "ACME", amount := JsNum.num 0 } :=
  ⟨rfl, C10_nan_amount_collides_with_zero.2
    { date := "2024-01-15", description := "ACME", amount := JsNum.nan } rfl⟩

/-! ### Claim C8 -/

/-- C8: `parseText` fails exactly when the trimmed input is detected as HTML
table markup but the document contains no table element (`NoTableFound`);
every other input yields a `ParseResult`, and empty or whitespace-only text
parses to zero rows. -/
theorem C8_parseText_error_iff_noTable
    (dom : String → Option (List (List String))) (text : String) :
    (ClipboardParser.parseText dom text = Except.error ParseError.noTableFound ↔
      ClipboardParser.isHTML (jsTrim text) = true ∧ dom (jsTrim text) = none) ∧
    (jsTrim text = "" →
      ClipboardParser.parseText dom text =
        Except.ok { headers := [], rows := [], format := ParseFormat.unknown }) := by
  constructor
  · by_cases hH : ClipboardParser.isHTML (jsTrim text) = true
    · cases hdom : dom (jsTrim text) with
      | none => simp [ClipboardParser.parseText, ClipboardParser.parseHTML, hH, hdom]
      | some tr => simp [ClipboardParser.parseText, ClipboardParser.parseHTML, hH, hdom]
    · rw [Bool.not_eq_true] at hH
      simp only [ClipboardParser.parseText, hH, Bool.false_eq_true, if_false]
      constructor
      · intro hcontra
        split at hcontra
        · exact Except.noConfusion hcontra
        · split at hcontra
          · exact Except.noConfusion hcontra
          · exact Except.noConfusion hcontra
      · rintro ⟨h1, _⟩
        exact h1.elim
  · intro h
    unfold ClipboardParser.parseText
    rw [h]
    rfl

/-- Witness for C8: an HTML fragment without a table errors, and whitespace
text parses to zero rows. -/
theorem C8_parseText_error_iff_noTable_witness :
    (ClipboardParser.parseText (fun _ => none) "<td>x" =
        Except.error ParseError.noTableFound ↔
      ClipboardParser.isHTML (jsTrim "<td>x") = true ∧
        (fun _ => (none : Option (List (List String)))) (jsTrim "<td>x") = none) ∧
    ClipboardParser.parseText (fun _ => none) " \n  " =
      Except.ok { headers := [], rows := [], format := ParseFormat.unknown } :=
  ⟨(C8_parseText_error_iff_noTable (fun _ => none) "<td>x").1,
   (C8_parseText_error_iff_noTable (fun _ => none) " \n  ").2 (by decide)⟩

/-! ### Claim C4 -/

/-- C4 counterexample: `parseAmount "(123.45)"` is `-123.45`, a negative
number — the parenthesized magnitude is negated, not returned as a
non-negative magnitude. -/
theorem C4_parseAmount_negative_counterexample :
    parseAmount "(123.45)" = -(2469/20 : ℚ) ∧ parseAmount "(123.45)" < 0 := by
  constructor
  · decide
  · decide

theorem stringDataEq {a b : String} (h : a.data = b.data) : a = b := by
  cases a
  cases b
  exact congrArg String.mk h

theorem parenWrapData (m : String) :
    ("(" ++ m ++ ")" : String).data = '(' :: (m.data ++ [')']) := by
  show ("(".data ++ m.data) ++ ")".data = _
  simp

/-- C4 (amended): the Mapper's `parseAmount` returns the signed value — an
unparseable cleaned string yields `0`, and a parenthesis-wrapped magnitude
yields the negated magnitude (so `"(123.45)"` becomes `-123.45`); the sign is
embedded in the returned number rather than stripped to a magnitude. -/
theorem C4_parseAmount_signed_amended :
    (∀ s : String,
      jsParseFloat (String.mk ((cleanAmount s).data.filter
        (fun c => !(c = '(' || c = ')')))) = none →
      parseAmount s = 0) ∧
    (∀ (m : String) (q : ℚ), cleanAmount m = m →
      (∀ c ∈ m.data, (!(c = '(' || c = ')')) = true) →
      jsParseFloat m = some q →
      parseAmount ("(" ++ m ++ ")") = -q) := by
  constructor
  · intro s h
    by_cases hs : s = ""
    · simp [parseAmount, hs]
    · simp only [parseAmount, if_neg hs]
      rw [h]
  · intro m q hclean hnp hparse
    have hdata := parenWrapData m
    have hne : ("(" ++ m ++ ")" : String) ≠ "" := by
      intro hh
      have h2 := congrArg String.data hh
      rw [hdata] at h2
      exact List.noConfusion h2
    have hcm : List.filter (fun c =>
        !(c = '$' || c = '£' || c = '€' || c = '¥' || c = '₹' || c = ',' || isJsSpace c))
        m.data = m.data := congrArg String.data hclean
    have hclean2 : cleanAmount ("(" ++ m ++ ")") = "(" ++ m ++ ")" := by
      apply stringDataEq
      have e1 : (cleanAmount ("(" ++ m ++ ")")).data =
          List.filter (fun c =>
            !(c = '$' || c = '£' || c = '€' || c = '¥' || c = '₹' || c = ',' || isJsSpace c))
            (("(" ++ m ++ ")").data) := rfl
      rw [e1, hdata]
      simp only [List.filter_cons, List.filter_append, hcm]
      norm_num [isJsSpace]
      exact hdata.symm
    have hstart : jsStartsWith ("(" ++ m ++ ")") "(" = true := by
      unfold jsStartsWith
      rw [hdata, show ("(" : String).data = ['('] from rfl]
      simp [List.isPrefixOf]
    have hend : jsEndsWith ("(" ++ m ++ ")") ")" = true := by
      unfold jsEndsWith
      rw [hdata, show (")" : String).data = [')'] from rfl]
      simp [List.isPrefixOf]
    have hnum : String.mk ((("(" ++ m ++ ")").data).filter
        (fun c => !(c = '(' || c = ')'))) = m := by
      apply stringDataEq
      have e2 : (String.mk ((("(" ++ m ++ ")").data).filter
          (fun c => !(c = '(' || c = ')')))).data =
          (("(" ++ m ++ ")").data).filter (fun c => !(c = '(' || c = ')')) := rfl
      rw [e2, hdata]
      simp only [List.filter_cons, List.filter_append]
      rw [List.filter_eq_self.mpr hnp]
      norm_num
    simp only [parseAmount, if_neg hne, hclean2, hstart, hend, Bool.and_self, hnum, hparse,
      if_true]

/-- Witness for C4 at `"(123.45)"` and the unparseable `"abc"`. -/
theorem C4_parseAmount_signed_amended_witness :
    cleanAmount "123.45" = "123.45" ∧
    jsParseFloat "123.45" = some (2469/20 : ℚ) ∧
    parseAmount ("(" ++ "123.45" ++ ")") = -(2469/20 : ℚ) ∧
    parseAmount "abc" = 0 :=
  ⟨by decide, by decide,
   C4_parseAmount_signed_amended.2 "123.45" (2469/20) (by decide) (by decide) (by decide),
   C4_parseAmount_signed_amended.1 "abc" (by decide)⟩

/-! ### Claim C3 -/

set_option maxRecDepth 100000 in
/-- C3 counterexample: after one `learnFromCorrection("SQ *COFFEE 123",
"Luna Coffee")` on the default rule set, re-normalizing returns
`"Luna Coffee"` but with confidence `0.54 < 0.9`: the learned rule's pattern
is only the first significant word `"coffee"`, and a substring match is
scored `confidence × overlapRatio = 0.9 × 6/10`. -/
theorem C3_learning_convergence_counterexample :
    (VendorNormalizer.normalizeVendorS
      (VendorNormalizer.learnFromCorrectionS (VendorNormalizer.mkVendorNormalizer [])
        "SQ *COFFEE 123" "Luna Coffee" "rule-uuid-1" 0)
      "SQ *COFFEE 123" 1).1.normalizedName = "Luna Coffee" ∧
    (VendorNormalizer.normalizeVendorS
      (VendorNormalizer.learnFromCorrectionS (VendorNormalizer.mkVendorNormalizer [])
        "SQ *COFFEE 123" "Luna Coffee" "rule-uuid-1" 0)
      "SQ *COFFEE 123" 1).1.confidence < 9/10 := by
  constructor
  · decide
  · decide

set_option maxRecDepth 100000 in
/-- C3 (amended): after one correction, re-normalizing `"SQ *COFFEE 123"`
does return `"Luna Coffee"`, but with confidence exactly `27/50 = 0.54`
(rule confidence `0.9` scaled by the substring overlap `6/10`), which is
below both `0.9` and the `0.8` review threshold, so the result still has
`needsReview = true`. -/
theorem C3_learning_convergence_amended :
    (VendorNormalizer.normalizeVendorS
      (VendorNormalizer.learnFromCorrectionS (VendorNormalizer.mkVendorNormalizer [])
        "SQ *COFFEE 123" "Luna Coffee" "rule-uuid-1" 0)
      "SQ *COFFEE 123" 1).1.normalizedName = "Luna Coffee" ∧
    (VendorNormalizer.normalizeVendorS
      (VendorNormalizer.learnFromCorrectionS (VendorNormalizer.mkVendorNormalizer [])
        "SQ *COFFEE 123" "Luna Coffee" "rule-uuid-1" 0)
      "SQ *COFFEE 123" 1).1.confidence = 27/50 ∧
    (VendorNormalizer.normalizeVendorS
      (VendorNormalizer.learnFromCorrectionS (VendorNormalizer.mkVendorNormalizer [])
        "SQ *COFFEE 123" "Luna Coffee" "rule-uuid-1" 0)
      "SQ *COFFEE 123" 1).1.needsReview = true := by
  refine ⟨?_, ?_, ?_⟩
  · decide
  · decide
  · decide

/-! ### Claim C5 -/

set_option maxRecDepth 100000 in
/-- C5 counterexample: in the `VendorNormalizer`, a seed rule and a
user-defined rule both match `"SBUX"` with the same score `1`, yet the seed
rule's result is ranked first (the winning rule is not user-defined and the
user rule sits in `suggestions`): the vendor comparator tie-breaks on
`useCount`, never on `isUserDefined`. -/
theorem C5_vendor_seed_outranks_user_counterexample :
    ((VendorNormalizer.normalizeVendorS (VendorNormalizer.mkVendorNormalizer [sbuxUserRule])
        "SBUX" 0).1.rule.map (fun r => r.isUserDefined)) = some false ∧
    ((VendorNormalizer.normalizeVendorS (VendorNormalizer.mkVendorNormalizer [sbuxUserRule])
        "SBUX" 0).1.suggestions.headD vendorMatchW).rule.isUserDefined = true ∧
    (VendorNormalizer.normalizeVendorS (VendorNormalizer.mkVendorNormalizer [sbuxUserRule])
        "SBUX" 0).1.confidence = 1 ∧
    ((VendorNormalizer.normalizeVendorS (VendorNormalizer.mkVendorNormalizer [sbuxUserRule])
        "SBUX" 0).1.suggestions.headD vendorMatchW).confidence = 1 := by
  refine ⟨?_, ?_, ?_, ?_⟩
  · decide
  · decide
  · decide
  · decide

/-- C5 (amended): only the `AutoCategorizer` prefers user-defined rules: in
its ranked candidate list every user-defined entry precedes every non-user
entry, whatever the scores.  (The `VendorNormalizer` orders near-ties by
`useCount` and input order only, so there a seed rule can outrank a
user-defined rule of similar confidence, as the counterexample shows.) -/
theorem C5_categorizer_user_rules_ranked_first (s : CategorizerState)
    (description : String) :
    (AutoCategorizer.rankedMatches s description).Pairwise
      (fun a b => isTruthy b.rule.isUserDefined = true →
        isTruthy a.rule.isUserDefined = true) := by
  apply jsSortStable_userFirst AutoCategorizer.categoryCmp
    (fun m => isTruthy m.rule.isUserDefined)
  · intro a b ha hb
    simp only [AutoCategorizer.categoryCmp, ha, hb, Bool.not_false, Bool.and_self, if_true]
    norm_num
  · intro a b ha hb
    simp only [AutoCategorizer.categoryCmp, ha, hb, Bool.not_false, Bool.not_true,
      Bool.and_self, Bool.false_and, Bool.and_false, Bool.true_and, if_false,
      Bool.false_eq_true, if_true]
    norm_num

/-- Witness for C5 (amended) at a concrete store and description. -/
theorem C5_categorizer_user_rules_ranked_first_witness :
    (AutoCategorizer.rankedMatches
      (AutoCategorizer.mkAutoCategorizer [outsideCategoryRule] [] none) "zzqq").Pairwise
      (fun a b => isTruthy b.rule.isUserDefined = true →
        isTruthy a.rule.isUserDefined = true) :=
  C5_categorizer_user_rules_ranked_first
    (AutoCategorizer.mkAutoCategorizer [outsideCategoryRule] [] none) "zzqq"

/-! ### Claim C6 -/

set_option maxRecDepth 100000 in
/-- C6 counterexample: with the non-empty category set `["Groceries"]`, a
user-defined rule whose category `"Fun"` lies outside the set is still
matched, and `"Fun"` is suggested: the category filter exempts user-defined
rules, so suggestions outside the caller's set are possible. -/
theorem C6_category_filter_counterexample :
    (AutoCategorizer.mkAutoCategorizer [outsideCategoryRule] ["Groceries"] none).userCategories ≠
      [] ∧
    (AutoCategorizer.categorizeTransactionS
      (AutoCategorizer.mkAutoCategorizer [outsideCategoryRule] ["Groceries"] none)
      "zzqq" 0).1.suggestedCategory = some "Fun" ∧
    ("Fun" ∉
      (AutoCategorizer.mkAutoCategorizer [outsideCategoryRule] ["Groceries"] none).userCategories) := by
  refine ⟨?_, ?_, ?_⟩
  · decide
  · decide
  · decide

set_option maxRecDepth 400000 in
/-- C6 (amended): when the caller's category set is non-empty, every
candidate produced by `categorizeTransaction` comes from a rule that is
either user-defined or whose category lies in the set — seed rules outside
the set are excluded, but user-defined rules bypass the filter.  In
particular the seed `"netflix" → "Entertainment"` rule is suppressed for a
category set without `"Entertainment"`: `categorizeTransaction("NETFLIX.COM")`
suggests nothing at all. -/
theorem C6_category_filter_amended :
    (∀ (s : CategorizerState) (description : String), s.userCategories ≠ [] →
      ∀ m ∈ AutoCategorizer.rankedMatches s description,
        isTruthy m.rule.isUserDefined = true ∨ m.rule.category ∈ s.userCategories) ∧
    (AutoCategorizer.categorizeTransactionS
      (AutoCategorizer.mkAutoCategorizer [] ["Groceries"] none)
      "NETFLIX.COM" 0).1.suggestedCategory = none ∧
    (AutoCategorizer.categorizeTransactionS
      (AutoCategorizer.mkAutoCategorizer [] ["Groceries"] none)
      "NETFLIX.COM" 0).1.alternatives = [] := by
  refine ⟨?_, by decide, by decide⟩
  intro s description hcats m hm
  have hie : s.userCategories.isEmpty = false := by
    cases hsc : s.userCategories with
    | nil => exact absurd hsc hcats
    | cons a l => rfl
  have hm2 : m ∈ AutoCategorizer.candidateMatches s
      (AutoCategorizer.normalizeDescription description) :=
    (jsSortStable_mem _ _ _).mp hm
  obtain ⟨rule, hrmem, heq⟩ := List.mem_filterMap.mp hm2
  by_cases hact : (!isTruthy rule.isActive) = true
  · rw [if_pos hact] at heq
    exact Option.noConfusion heq
  · rw [if_neg hact] at heq
    by_cases hskip : (!isTruthy rule.isUserDefined && !s.userCategories.isEmpty &&
        !s.userCategories.contains rule.category) = true
    · rw [if_pos hskip] at heq
      exact Option.noConfusion heq
    · rw [if_neg hskip] at heq
      have hmr : m.rule = rule := by
        by_cases hconf : 0 < AutoCategorizer.calculateMatchConfidence
            (AutoCategorizer.normalizeDescription description) rule
        · rw [if_pos hconf] at heq
          cases heq
          rfl
        · rw [if_neg hconf] at heq
          exact Option.noConfusion heq
      rw [hmr]
      rcases Bool.eq_false_or_eq_true (isTruthy rule.isUserDefined) with hu | hu
      · exact Or.inl hu
      · right
        simp only [hu, hie, Bool.not_false, Bool.true_and] at hskip
        rw [Bool.not_eq_true, Bool.not_eq_false'] at hskip
        exact (stringContains_iff_mem _ _).mp hskip

/-! ### Claim C7 -/

set_option maxRecDepth 100000 in
/-- C7 counterexample: the categorizer round-trip
`loadUserRules(getUserDefinedRules())` is not behaviour-preserving: a
user-defined rule whose `isActive` field was never set is skipped before the
round-trip (so `"zzqq"` gets no suggestion) but is rewritten to
`isActive = true` by `loadUserRules` and matches afterwards. -/
theorem C7_roundtrip_counterexample :
    (AutoCategorizer.categorizeTransactionS
      (AutoCategorizer.mkAutoCategorizer [undefActiveRule] [] none)
      "zzqq" 0).1.suggestedCategory = none ∧
    (AutoCategorizer.categorizeTransactionS
      (AutoCategorizer.loadUserRulesS
        (AutoCategorizer.mkAutoCategorizer [undefActiveRule] [] none)
        (AutoCategorizer.getUserDefinedRulesS
          (AutoCategorizer.mkAutoCategorizer [undefActiveRule] [] none)))
      "zzqq" 0).1.suggestedCategory = some "X" := by
  constructor
  · decide
  · decide

/-- Results of `normalizeVendor` depend only on the `rules` component of the
normalizer's state (the learning cache is read by `learnFromCorrection`
only). -/
theorem normalizeVendorS_rules_only (s1 s2 : VendorState) (h : s1.rules = s2.rules)
    (name : String) (now : Nat) :
    (VendorNormalizer.normalizeVendorS s1 name now).1 =
      (VendorNormalizer.normalizeVendorS s2 name now).1 ∧
    (VendorNormalizer.normalizeVendorS s1 name now).2.rules =
      (VendorNormalizer.normalizeVendorS s2 name now).2.rules := by
  unfold VendorNormalizer.normalizeVendorS
  rw [h]
  cases hsort : jsSortStable VendorNormalizer.vendorCmp
      (VendorNormalizer.findMatchingRules s2.rules
        (VendorNormalizer.preCleanVendorName name)) with
  | nil => simp [hsort, h]
  | cons best rest => simp [hsort]

/-- C7 (amended): the round-trips preserve behaviour on rule stores of the
shape every public construction produces — all non-user rules before all
user rules, and (for the categorizer) every user rule's `isActive`
explicitly set.  `importRules(exportRules())` then restores the vendor rule
list exactly, so all subsequent `normalizeVendor` results are unchanged;
`loadUserRules(getUserDefinedRules())` restores the categorizer state
exactly.  (Outside this shape the categorizer round-trip rewrites an unset
`isActive` to `true`, which changes behaviour — see the counterexample.) -/
theorem C7_roundtrip_amended :
    (∀ s : VendorState,
      s.rules.filter (fun r => !r.isUserDefined) ++
        s.rules.filter (fun r => r.isUserDefined) = s.rules →
      (VendorNormalizer.importRulesS s (VendorNormalizer.exportRulesS s)).rules = s.rules ∧
      ∀ (name : String) (now : Nat),
        (VendorNormalizer.normalizeVendorS
          (VendorNormalizer.importRulesS s (VendorNormalizer.exportRulesS s)) name now).1 =
          (VendorNormalizer.normalizeVendorS s name now).1) ∧
    (∀ s : CategorizerState,
      s.rules.filter (fun r => !isTruthy r.isUserDefined) ++
        s.rules.filter (fun r => isTruthy r.isUserDefined) = s.rules →
      (∀ r ∈ s.rules, isTruthy r.isUserDefined = true → r.isActive ≠ none) →
      AutoCategorizer.loadUserRulesS s (AutoCategorizer.getUserDefinedRulesS s) = s) := by
  constructor
  · intro s hsplit
    have hr : (VendorNormalizer.importRulesS s (VendorNormalizer.exportRulesS s)).rules =
        s.rules := by
      unfold VendorNormalizer.importRulesS VendorNormalizer.exportRulesS
      exact hsplit
    exact ⟨hr, fun name now => (normalizeVendorS_rules_only _ _ hr name now).1⟩
  · intro s hsplit hact
    unfold AutoCategorizer.loadUserRulesS AutoCategorizer.getUserDefinedRulesS
    have hmap : (s.rules.filter (fun r => isTruthy r.isUserDefined)).map
        (fun rule => { rule with isActive := some (rule.isActive ≠ some false) }) =
        s.rules.filter (fun r => isTruthy r.isUserDefined) := by
      have hcg : ∀ x ∈ s.rules.filter (fun r => isTruthy r.isUserDefined),
          ({ x with isActive := some (x.isActive ≠ some false) } : CategoryRule) = id x := by
        intro x hx
        have hxm := List.mem_filter.mp hx
        have hb := hact x hxm.1 hxm.2
        cases hia : x.isActive with
        | none => exact absurd hia hb
        | some b =>
          have hfield : (some ((some b ≠ some false : Bool)) : Option Bool) = x.isActive := by
            rw [hia]
            cases b
            · rfl
            · rfl
          show ({ x with isActive := some ((some b ≠ some false : Bool)) } : CategoryRule) = id x
          rw [hfield]
          rfl
      exact (List.map_congr_left hcg).trans (List.map_id _)
    rw [hmap, hsplit]

/-- Witness for C7 at concretely constructed engines. -/
theorem C7_roundtrip_amended_witness :
    ((VendorNormalizer.mkVendorNormalizer [sbuxUserRule]).rules.filter
        (fun r => !r.isUserDefined) ++
      (VendorNormalizer.mkVendorNormalizer [sbuxUserRule]).rules.filter
        (fun r => r.isUserDefined) =
      (VendorNormalizer.mkVendorNormalizer [sbuxUserRule]).rules) ∧
    (VendorNormalizer.normalizeVendorS
      (VendorNormalizer.importRulesS (VendorNormalizer.mkVendorNormalizer [sbuxUserRule])
        (VendorNormalizer.exportRulesS (VendorNormalizer.mkVendorNormalizer [sbuxUserRule])))
      "SBUX" 0).1 =
      (VendorNormalizer.normalizeVendorS (VendorNormalizer.mkVendorNormalizer [sbuxUserRule])
        "SBUX" 0).1 ∧
    AutoCategorizer.loadUserRulesS
      (AutoCategorizer.mkAutoCategorizer [outsideCategoryRule] ["Groceries"] none)
      (AutoCategorizer.getUserDefinedRulesS
        (AutoCategorizer.mkAutoCategorizer [outsideCategoryRule] ["Groceries"] none)) =
      AutoCategorizer.mkAutoCategorizer [outsideCategoryRule] ["Groceries"] none :=
  ⟨by decide,
   (C7_roundtrip_amended.1 (VendorNormalizer.mkVendorNormalizer [sbuxUserRule])
     (by decide)).2 "SBUX" 0,
   C7_roundtrip_amended.2 (AutoCategorizer.mkAutoCategorizer [outsideCategoryRule]
     ["Groceries"] none) (by decide) (by decide)⟩

/-! ### Claim C9 -/

set_option maxRecDepth 100000 in
/-- C9 counterexample: with two rules sharing one id, the *winning* rule
(`dupRuleB`, index 14) keeps its `useCount`, while the first rule with the
same id (`dupRuleA`, index 13) is mutated instead — `updateRuleUsage` looks
the winner up by id with `find`, which returns the first match. -/
theorem C9_usage_update_counterexample :
    (VendorNormalizer.normalizeVendorS (VendorNormalizer.mkVendorNormalizer [dupRuleA, dupRuleB])
        "zzqq" 3).1.rule = some dupRuleB ∧
    (VendorNormalizer.normalizeVendorS (VendorNormalizer.mkVendorNormalizer [dupRuleA, dupRuleB])
        "zzqq" 3).2.rules.getD 14 vendorRuleW = dupRuleB ∧
    (VendorNormalizer.normalizeVendorS (VendorNormalizer.mkVendorNormalizer [dupRuleA, dupRuleB])
        "zzqq" 3).2.rules.getD 13 vendorRuleW = VendorNormalizer.bumpUsage 3 dupRuleA ∧
    VendorNormalizer.bumpUsage 3 dupRuleA ≠ dupRuleA := by
  refine ⟨?_, ?_, ?_, ?_⟩
  · decide
  · decide
  · decide
  · decide

theorem vendorMatch_rule_mem (rules : List VendorNormalizationRule) (v : String)
    (m : VendorMatch) (hm : m ∈ VendorNormalizer.findMatchingRules rules v) :
    m.rule ∈ rules := by
  obtain ⟨rule, hrm, heq⟩ := List.mem_filterMap.mp hm
  by_cases hc : 3/10 < VendorNormalizer.ruleScore rule v
  · rw [if_pos hc] at heq
    cases heq
    exact hrm
  · rw [if_neg hc] at heq
    exact Option.noConfusion heq

theorem categoryMatch_rule_mem (s : CategorizerState) (d : String)
    (m : CategoryMatch) (hm : m ∈ AutoCategorizer.candidateMatches s d) :
    m.rule ∈ s.rules := by
  obtain ⟨rule, hrm, heq⟩ := List.mem_filterMap.mp hm
  by_cases h1 : (!isTruthy rule.isActive) = true
  · rw [if_pos h1] at heq
    exact Option.noConfusion heq
  · rw [if_neg h1] at heq
    by_cases h2 : (!isTruthy rule.isUserDefined && !s.userCategories.isEmpty &&
        !s.userCategories.contains rule.category) = true
    · rw [if_pos h2] at heq
      exact Option.noConfusion heq
    · rw [if_neg h2] at heq
      by_cases hc : 0 < AutoCategorizer.calculateMatchConfidence d rule
      · rw [if_pos hc] at heq
        cases heq
        exact hrm
      · rw [if_neg hc] at heq
        exact Option.noConfusion heq

/-- C9 (amended): on a rule store with pairwise-distinct rule ids — which
holds for the seed rules plus `crypto.randomUUID()`-generated learned rules —
a successful `normalizeVendor`/`categorizeTransaction` call changes exactly
the winning rule, incrementing its `useCount` by one and setting its
`lastUsed`, and leaves every other rule and every other field unchanged.
(When two rules share an id, the first rule with the winning id is mutated
instead of the winner — see the counterexample.) -/
theorem C9_usage_update_frame_amended :
    (∀ (s : VendorState) (name : String) (now : Nat) (r : VendorNormalizationRule),
      (s.rules.map VendorNormalizationRule.id).Nodup →
      (VendorNormalizer.normalizeVendorS s name now).1.rule = some r →
      (VendorNormalizer.normalizeVendorS s name now).2.rules.length = s.rules.length ∧
      ∃ i, i < s.rules.length ∧ s.rules.getD i vendorRuleW = r ∧
        (VendorNormalizer.normalizeVendorS s name now).2.rules.getD i vendorRuleW =
          VendorNormalizer.bumpUsage now r ∧
        ∀ j, j ≠ i →
          (VendorNormalizer.normalizeVendorS s name now).2.rules.getD j vendorRuleW =
            s.rules.getD j vendorRuleW) ∧
    (∀ (s : CategorizerState) (description : String) (now : Nat) (r : CategoryRule),
      (s.rules.map CategoryRule.id).Nodup →
      (AutoCategorizer.categorizeTransactionS s description now).1.matchedRule = some r →
      (AutoCategorizer.categorizeTransactionS s description now).2.rules.length =
        s.rules.length ∧
      ∃ i, i < s.rules.length ∧ s.rules.getD i categoryRuleW = r ∧
        (AutoCategorizer.categorizeTransactionS s description now).2.rules.getD i
          categoryRuleW = AutoCategorizer.bumpCatUsage now r ∧
        ∀ j, j ≠ i →
          (AutoCategorizer.categorizeTransactionS s description now).2.rules.getD j
            categoryRuleW = s.rules.getD j categoryRuleW) := by
  constructor
  · intro s name now r hnd hrule
    simp only [VendorNormalizer.normalizeVendorS] at hrule ⊢
    cases hsort : jsSortStable VendorNormalizer.vendorCmp
        (VendorNormalizer.findMatchingRules s.rules
          (VendorNormalizer.preCleanVendorName name)) with
    | nil =>
      rw [hsort] at hrule
      exact Option.noConfusion hrule
    | cons best rest =>
      rw [hsort] at hrule
      simp only [] at hrule ⊢
      have hr : r = best.rule := (Option.some.inj hrule).symm
      subst hr
      have hbmem : best ∈ VendorNormalizer.findMatchingRules s.rules
          (VendorNormalizer.preCleanVendorName name) := by
        refine (jsSortStable_mem VendorNormalizer.vendorCmp best
          (VendorNormalizer.findMatchingRules s.rules
            (VendorNormalizer.preCleanVendorName name))).mp ?_
        rw [hsort]
        exact List.mem_cons_self _ _
      obtain ⟨i, hi, h1, h2, h3⟩ := updateFirst_key_frame VendorNormalizationRule.id
        (VendorNormalizer.bumpUsage now) vendorRuleW s.rules best.rule hnd
        (vendorMatch_rule_mem s.rules _ best hbmem)
      exact ⟨updateFirst_length _ _ _, i, hi, h1, h2, h3⟩
  · intro s description now r hnd hrule
    simp only [AutoCategorizer.categorizeTransactionS] at hrule ⊢
    cases hsort : AutoCategorizer.rankedMatches s description with
    | nil =>
      rw [hsort] at hrule
      exact Option.noConfusion hrule
    | cons best rest =>
      rw [hsort] at hrule
      simp only [] at hrule ⊢
      have hr : r = best.rule := (Option.some.inj hrule).symm
      subst hr
      have hbmem : best ∈ AutoCategorizer.candidateMatches s
          (AutoCategorizer.normalizeDescription description) := by
        refine (jsSortStable_mem AutoCategorizer.categoryCmp best
          (AutoCategorizer.candidateMatches s
            (AutoCategorizer.normalizeDescription description))).mp ?_
        rw [show jsSortStable AutoCategorizer.categoryCmp
            (AutoCategorizer.candidateMatches s
              (AutoCategorizer.normalizeDescription description)) =
            AutoCategorizer.rankedMatches s description from rfl, hsort]
        exact List.mem_cons_self _ _
      obtain ⟨i, hi, h1, h2, h3⟩ := updateFirst_key_frame CategoryRule.id
        (AutoCategorizer.bumpCatUsage now) categoryRuleW s.rules best.rule hnd
        (categoryMatch_rule_mem s _ best hbmem)
      exact ⟨updateFirst_length _ _ _, i, hi, h1, h2, h3⟩

set_option maxRecDepth 400000 in
/-- Witness for C9: the default vendor store on `"SBUX"` (the `sbux` seed
rule wins) and the default categorizer on `"NETFLIX.COM"` (the entertainment
seed rule wins). -/
theorem C9_usage_update_frame_amended_witness :
    ((VendorNormalizer.mkVendorNormalizer []).rules.map VendorNormalizationRule.id).Nodup ∧
    (VendorNormalizer.normalizeVendorS (VendorNormalizer.mkVendorNormalizer [])
        "SBUX" 0).1.rule =
      some ((VendorNormalizer.mkVendorNormalizer []).rules.getD 5 vendorRuleW) ∧
    ((VendorNormalizer.normalizeVendorS (VendorNormalizer.mkVendorNormalizer [])
        "SBUX" 0).2.rules.length = (VendorNormalizer.mkVendorNormalizer []).rules.length ∧
      ∃ i, i < (VendorNormalizer.mkVendorNormalizer []).rules.length ∧
        (VendorNormalizer.mkVendorNormalizer []).rules.getD i vendorRuleW =
          (VendorNormalizer.mkVendorNormalizer []).rules.getD 5 vendorRuleW ∧
        (VendorNormalizer.normalizeVendorS (VendorNormalizer.mkVendorNormalizer [])
            "SBUX" 0).2.rules.getD i vendorRuleW =
          VendorNormalizer.bumpUsage 0
            ((VendorNormalizer.mkVendorNormalizer []).rules.getD 5 vendorRuleW) ∧
        ∀ j, j ≠ i →
          (VendorNormalizer.normalizeVendorS (VendorNormalizer.mkVendorNormalizer [])
              "SBUX" 0).2.rules.getD j vendorRuleW =
            (VendorNormalizer.mkVendorNormalizer []).rules.getD j vendorRuleW) ∧
    ((AutoCategorizer.mkAutoCategorizer [] [] none).rules.map CategoryRule.id).Nodup ∧
    (AutoCategorizer.categorizeTransactionS (AutoCategorizer.mkAutoCategorizer [] [] none)
        "NETFLIX.COM" 0).1.matchedRule =
      some ((AutoCategorizer.mkAutoCategorizer [] [] none).rules.getD 7 categoryRuleW) ∧
    ((AutoCategorizer.categorizeTransactionS (AutoCategorizer.mkAutoCategorizer [] [] none)
        "NETFLIX.COM" 0).2.rules.length =
      (AutoCategorizer.mkAutoCategorizer [] [] none).rules.length ∧
      ∃ i, i < (AutoCategorizer.mkAutoCategorizer [] [] none).rules.length ∧
        (AutoCategorizer.mkAutoCategorizer [] [] none).rules.getD i categoryRuleW =
          (AutoCategorizer.mkAutoCategorizer [] [] none).rules.getD 7 categoryRuleW ∧
        (AutoCategorizer.categorizeTransactionS (AutoCategorizer.mkAutoCategorizer [] [] none)
            "NETFLIX.COM" 0).2.rules.getD i categoryRuleW =
          AutoCategorizer.bumpCatUsage 0
            ((AutoCategorizer.mkAutoCategorizer [] [] none).rules.getD 7 categoryRuleW) ∧
        ∀ j, j ≠ i →
          (AutoCategorizer.categorizeTransactionS (AutoCategorizer.mkAutoCategorizer [] [] none)
              "NETFLIX.COM" 0).2.rules.getD j categoryRuleW =
            (AutoCategorizer.mkAutoCategorizer [] [] none).rules.getD j categoryRuleW) :=
  ⟨by decide, by decide,
   C9_usage_update_frame_amended.1 (VendorNormalizer.mkVendorNormalizer []) "SBUX" 0
     ((VendorNormalizer.mkVendorNormalizer []).rules.getD 5 vendorRuleW)
     (by decide) (by decide),
   by decide, by decide,
   C9_usage_update_frame_amended.2 (AutoCategorizer.mkAutoCategorizer [] [] none)
     "NETFLIX.COM" 0
     ((AutoCategorizer.mkAutoCategorizer [] [] none).rules.getD 7 categoryRuleW)
     (by decide) (by decide)⟩

set_option maxRecDepth 100000 in
/-- Witness for C6 at a concrete store, category set and candidate. -/
theorem C6_category_filter_amended_witness :
    (AutoCategorizer.mkAutoCategorizer [outsideCategoryRule] ["Groceries"] none).userCategories ≠
      [] ∧
    ({ rule := outsideCategoryRule, confidence := 9/10 } : CategoryMatch) ∈
      AutoCategorizer.rankedMatches
        (AutoCategorizer.mkAutoCategorizer [outsideCategoryRule] ["Groceries"] none) "zzqq" ∧
    (isTruthy ({ rule := outsideCategoryRule, confidence := 9/10 } :
        CategoryMatch).rule.isUserDefined = true ∨
      ({ rule := outsideCategoryRule, confidence := 9/10 } : CategoryMatch).rule.category ∈
        (AutoCategorizer.mkAutoCategorizer [outsideCategoryRule] ["Groceries"]
          none).userCategories) :=
  ⟨by decide, by decide,
   C6_category_filter_amended.1
     (AutoCategorizer.mkAutoCategorizer [outsideCategoryRule] ["Groceries"] none) "zzqq"
     (by decide) { rule := outsideCategoryRule, confidence := 9/10 } (by decide)⟩
